import Mathlib

/-!
# shmipc-prometheus: the Prometheus monitor of shmipc-go sessions

A shallow embedding of `monitor.go`: the constructor `NewPrometheusMonitor`, the
callback `OnEmitSessionMetrics` and the persistence operation `Flush`, together with
the parts of the Go runtime and of the libraries they call that decide their
behaviour (integer to float64 conversion, map assignment, the default HTTP mux, the
Prometheus registries, the `%f` verb, `time.Format`).
-/

namespace Shmipc

/-! ## float64 values -/

/-- Bit length of `n` computed with `fuel` halvings (`bits.Len64` of Go). -/
def bitLenAux : Nat → Nat → Nat
  | 0, _ => 0
  | fuel + 1, n => if n = 0 then 0 else bitLenAux fuel (n / 2) + 1

/-- Number of binary digits of `n`; `bitLen 0 = 0`. -/
def bitLen (n : Nat) : Nat := bitLenAux n n

/-- The integer denoted by the float64 nearest to the integer `n`: `n` itself when it
has at most 53 significant bits, otherwise `n` rounded to 53 significant bits, ties
going to the even significand (IEEE-754 round-to-nearest-even, the rounding of a Go
conversion `float64(n)`). -/
def roundToFloat64 (n : Nat) : Nat :=
  if bitLen n ≤ 53 then n
  else
    let shift := bitLen n - 53
    let q := n / 2 ^ shift
    let r := n % 2 ^ shift
    let half := 2 ^ (shift - 1)
    if r < half then q * 2 ^ shift
    else if r = half ∧ q % 2 = 0 then q * 2 ^ shift
    else (q + 1) * 2 ^ shift

/-- A float64 value. Every float64 of this program is the conversion of an unsigned
integer counter, so it is a non-negative integer; `val` is that integer. -/
structure Float64 where
  val : Nat
deriving DecidableEq, Repr

/-- The Go conversion `float64(n)` of an unsigned integer. -/
def float64 (n : Nat) : Float64 := ⟨roundToFloat64 n⟩

/-- The Go conversion `uint64(f)` of a float64; outside the range of uint64 the
result is implementation specific and is left undefined here. -/
def Float64.toUint64 (f : Float64) : Option Nat :=
  if f.val < 2 ^ 64 then some f.val else none

/-! ## The metrics records of shmipc-go -/

/-- Modelled from the spec: the record `shmipc.PerformanceMetrics` is declared in the
shmipc-go library, not in this repository; it is "a plain record of integer counters".
The fields are those `OnEmitSessionMetrics` reads, each an unsigned integer. -/
structure PerformanceMetrics where
  ReceiveSyncEventCount : Nat
  SendSyncEventCount : Nat
  OutFlowBytes : Nat
  InFlowBytes : Nat
  SendQueueCount : Nat
  ReceiveQueueCount : Nat
deriving DecidableEq, Repr

/-- Modelled from the spec: the record `shmipc.StabilityMetrics` of the shmipc-go
library, a plain record of unsigned integer counters. -/
structure StabilityMetrics where
  AllocShmErrorCount : Nat
  FallbackWriteCount : Nat
  FallbackReadCount : Nat
  EventConnErrorCount : Nat
  QueueFullErrorCount : Nat
  ActiveStreamCount : Nat
  HotRestartSuccessCount : Nat
  HotRestartErrorCount : Nat
deriving DecidableEq, Repr

/-- Modelled from the spec: the record `shmipc.ShareMemoryMetrics` of the shmipc-go
library, a plain record of unsigned integer counters. -/
structure ShareMemoryMetrics where
  CapacityOfShareMemoryInBytes : Nat
  AllInUsedShareMemoryInBytes : Nat
deriving DecidableEq, Repr

/-- Modelled from the spec: the session handle `*shmipc.Session`; it "identifies which
session produced the snapshot but is not otherwise used". A nil pointer is `none`. -/
structure Session where
  id : Nat
deriving DecidableEq, Repr

/-! ## Gauges and maps -/

/-- The options `prometheus.GaugeOpts` a gauge is declared with. -/
structure GaugeOpts where
  Name : String
  Help : String
deriving DecidableEq, Repr

/-- A Prometheus gauge: its descriptor and the float64 it currently holds. -/
structure Gauge where
  opts : GaugeOpts
  value : Float64
deriving DecidableEq, Repr

/-- The call `prometheus.NewGauge(opts)`: a gauge holding 0. -/
def NewGauge (opts : GaugeOpts) : Gauge := { opts := opts, value := ⟨0⟩ }

/-- The call `g.Set(val)` on a gauge field; a nil gauge panics. -/
def Gauge.Set (g : Option Gauge) (val : Float64) : Except String (Option Gauge) :=
  match g with
  | none => .error "invalid memory address or nil pointer dereference"
  | some g => .ok (some { g with value := val })

/-- The entries of a Go `map[string]float64`, one pair per key. -/
abbrev GoMap := List (String × Float64)

/-- Entry assignment on the entries of a map: the value of an existing key is
replaced, a new key is added. -/
def mapSet : GoMap → String → Float64 → GoMap
  | [], k, v => [(k, v)]
  | (k0, v0) :: rest, k, v =>
    if k0 = k then (k, v) :: rest else (k0, v0) :: mapSet rest k v

/-- The statement `m[k] = v`; assignment to an entry of a nil map panics. -/
def mapAssign (m : Option GoMap) (k : String) (v : Float64) : Except String (Option GoMap) :=
  match m with
  | none => .error "assignment to entry in nil map"
  | some es => .ok (some (mapSet es k v))

/-- The expression `m[k]` with its presence flag; a nil map has no entry. -/
def mapLookup (m : Option GoMap) (k : String) : Option Float64 :=
  match m with
  | none => none
  | some es => es.lookup k

/-- The expression `len(m)`. -/
def mapLen (m : Option GoMap) : Nat :=
  match m with
  | none => 0
  | some es => es.length

/-! ## The monitor -/

/-- The struct `PrometheusMonitor`: sixteen gauge fields and the map `MonitorInfo`;
`none` is a nil field. -/
structure PrometheusMonitor where
  receiveSyncEventCount : Option Gauge
  sendSyncEventCount : Option Gauge
  outFlowBytes : Option Gauge
  inFlowBytes : Option Gauge
  sendQueueCount : Option Gauge
  receiveQueueCount : Option Gauge
  allocShmErrorCount : Option Gauge
  fallbackWriteCount : Option Gauge
  fallbackReadCount : Option Gauge
  eventConnErrorCount : Option Gauge
  queueFullErrorCount : Option Gauge
  activeStreamCount : Option Gauge
  hotRestartSuccessCount : Option Gauge
  hotRestartErrorCount : Option Gauge
  capacityOfShareMemory : Option Gauge
  allInUsedShareMemory : Option Gauge
  MonitorInfo : Option GoMap
deriving DecidableEq, Repr

/-- The method `OnEmitSessionMetrics`: sixteen gauge updates followed by sixteen map
assignments, in the order of the source; a panic is an error. -/
def OnEmitSessionMetrics (p : PrometheusMonitor) (performanceMetrics : PerformanceMetrics)
    (stabilityMetrics : StabilityMetrics) (shareMemoryMetrics : ShareMemoryMetrics)
    (_session : Option Session) : Except String PrometheusMonitor := do
  let g1 ← Gauge.Set p.receiveSyncEventCount (float64 performanceMetrics.ReceiveSyncEventCount)
  let g2 ← Gauge.Set p.sendSyncEventCount (float64 performanceMetrics.SendSyncEventCount)
  let g3 ← Gauge.Set p.outFlowBytes (float64 performanceMetrics.OutFlowBytes)
  let g4 ← Gauge.Set p.inFlowBytes (float64 performanceMetrics.InFlowBytes)
  let g5 ← Gauge.Set p.sendQueueCount (float64 performanceMetrics.SendQueueCount)
  let g6 ← Gauge.Set p.receiveQueueCount (float64 performanceMetrics.ReceiveQueueCount)
  let g7 ← Gauge.Set p.allocShmErrorCount (float64 stabilityMetrics.AllocShmErrorCount)
  let g8 ← Gauge.Set p.fallbackWriteCount (float64 stabilityMetrics.FallbackWriteCount)
  let g9 ← Gauge.Set p.fallbackReadCount (float64 stabilityMetrics.FallbackReadCount)
  let g10 ← Gauge.Set p.eventConnErrorCount (float64 stabilityMetrics.EventConnErrorCount)
  let g11 ← Gauge.Set p.queueFullErrorCount (float64 stabilityMetrics.QueueFullErrorCount)
  let g12 ← Gauge.Set p.activeStreamCount (float64 stabilityMetrics.ActiveStreamCount)
  let g13 ← Gauge.Set p.hotRestartSuccessCount (float64 stabilityMetrics.HotRestartSuccessCount)
  let g14 ← Gauge.Set p.hotRestartErrorCount (float64 stabilityMetrics.HotRestartErrorCount)
  let g15 ← Gauge.Set p.capacityOfShareMemory
    (float64 shareMemoryMetrics.CapacityOfShareMemoryInBytes)
  let g16 ← Gauge.Set p.allInUsedShareMemory
    (float64 shareMemoryMetrics.AllInUsedShareMemoryInBytes)
  let m ← mapAssign p.MonitorInfo "receiveSyncEventCount"
    (float64 performanceMetrics.ReceiveSyncEventCount)
  let m ← mapAssign m "sendSyncEventCount" (float64 performanceMetrics.SendSyncEventCount)
  let m ← mapAssign m "outFlowBytes" (float64 performanceMetrics.OutFlowBytes)
  let m ← mapAssign m "inFlowBytes" (float64 performanceMetrics.InFlowBytes)
  let m ← mapAssign m "sendQueueCount" (float64 performanceMetrics.SendQueueCount)
  let m ← mapAssign m "receiveQueueCount" (float64 performanceMetrics.ReceiveQueueCount)
  let m ← mapAssign m "allocShmErrorCount" (float64 stabilityMetrics.AllocShmErrorCount)
  let m ← mapAssign m "fallbackWriteCount" (float64 stabilityMetrics.FallbackWriteCount)
  let m ← mapAssign m "fallbackReadCount" (float64 stabilityMetrics.FallbackReadCount)
  let m ← mapAssign m "eventConnErrorCount" (float64 stabilityMetrics.EventConnErrorCount)
  let m ← mapAssign m "queueFullErrorCount" (float64 stabilityMetrics.QueueFullErrorCount)
  let m ← mapAssign m "activeStreamCount" (float64 stabilityMetrics.ActiveStreamCount)
  let m ← mapAssign m "hotRestartSuccessCount"
    (float64 stabilityMetrics.HotRestartSuccessCount)
  let m ← mapAssign m "hotRestartErrorCount" (float64 stabilityMetrics.HotRestartErrorCount)
  let m ← mapAssign m "capacityOfShareMemory"
    (float64 shareMemoryMetrics.CapacityOfShareMemoryInBytes)
  let m ← mapAssign m "allInUsedShareMemory"
    (float64 shareMemoryMetrics.AllInUsedShareMemoryInBytes)
  return {
    receiveSyncEventCount := g1
    sendSyncEventCount := g2
    outFlowBytes := g3
    inFlowBytes := g4
    sendQueueCount := g5
    receiveQueueCount := g6
    allocShmErrorCount := g7
    fallbackWriteCount := g8
    fallbackReadCount := g9
    eventConnErrorCount := g10
    queueFullErrorCount := g11
    activeStreamCount := g12
    hotRestartSuccessCount := g13
    hotRestartErrorCount := g14
    capacityOfShareMemory := g15
    allInUsedShareMemory := g16
    MonitorInfo := m }

/-! ## The process-wide state `NewPrometheusMonitor` acts on -/

/-- The check `model.IsValidMetricName` of the Prometheus client library on a metric
name: a letter, an underscore or a colon first, then letters, digits, underscores or
colons. -/
def isValidMetricName (name : String) : Bool :=
  match name.data with
  | [] => false
  | c :: cs =>
    (c.isAlpha || c = '_' || c = ':') &&
      cs.all (fun d => d.isAlpha || d.isDigit || d = '_' || d = ':')

/-- A Prometheus registry: the descriptors of the collectors registered in it, in
registration order. -/
structure Registry where
  collectors : List GaugeOpts
deriving DecidableEq, Repr

/-- The call `prometheus.NewRegistry()`: a registry without collectors. -/
def NewRegistry : Registry := ⟨[]⟩

/-- The method `Registry.Register` of the Prometheus client library on a gauge, as the
library documents it: it fails on an invalid descriptor and on a fully-qualified name
that is already registered, with the same help string (the same collector again) or
with another one. -/
def Registry.Register (r : Registry) (g : Gauge) : Except String Registry :=
  if !isValidMetricName g.opts.Name then
    .error ("descriptor is invalid: " ++ g.opts.Name ++ " is not a valid metric name")
  else if r.collectors.any (fun d => d = g.opts) then
    .error "duplicate metrics collector registration attempted"
  else if r.collectors.any (fun d => d.Name = g.opts.Name) then
    .error ("a previously registered descriptor with the same fully-qualified name as " ++
      g.opts.Name ++ " has different label names or a different help string")
  else .ok ⟨r.collectors ++ [g.opts]⟩

/-- The method `Registry.MustRegister(cs...)`: registers the collectors in order and
panics on the first failure. -/
def Registry.MustRegister (r : Registry) : List (Option Gauge) → Except String Registry
  | [] => .ok r
  | none :: _ => .error "invalid memory address or nil pointer dereference"
  | some g :: gs => do
    let r1 ← r.Register g
    Registry.MustRegister r1 gs

/-- The call `promauto.NewGauge(opts)` of the Prometheus client library: creates the
gauge and registers it with the process-wide default registerer `d`, panicking when the
registration fails; returns the registerer after the call and the gauge. -/
def promauto.NewGauge (d : Registry) (opts : GaugeOpts) : Except String (Registry × Option Gauge) := do
  let g := Shmipc.NewGauge opts
  let d1 ← d.MustRegister [some g]
  return (d1, some g)

/-- What differs between the releases of net/http in `ServeMux.Handle`: the error of
the pattern parser on a non-empty pattern (`none` when the parser accepts it) and the
pairs of different patterns that conflict. The package is a library, so the release is
that of the program it is built into. -/
structure MuxRules where
  parseError : String → Option String
  conflicts : String → String → Bool

/-- The rules of the releases before Go 1.22: every non-empty pattern is accepted and
two different patterns never conflict. Later releases reject malformed patterns (one
without a slash, one with a space that is not after a method, a bad wildcard) and let
overlapping patterns conflict. -/
def MuxRules.classic : MuxRules :=
  { parseError := fun _ => none, conflicts := fun _ _ => false }

/-- The request multiplexer `http.ServeMux`: the rules of its release and the patterns
that have a handler. -/
structure ServeMux where
  rules : MuxRules
  patterns : List String

/-- The pattern check of `ServeMux.Handle`: the pattern is not empty and the pattern
parser of the release accepts it. -/
def validPattern (rules : MuxRules) (pattern : String) : Bool :=
  pattern != "" && (rules.parseError pattern).isNone

/-- The method `ServeMux.Handle(pattern, handler)` of net/http for a non-nil handler,
as the library documents it: it panics on the empty pattern, on a pattern its parser
rejects, on a pattern that already has a handler and on one that conflicts with a
registered pattern. -/
def ServeMux.Handle (mux : ServeMux) (pattern : String) : Except String ServeMux :=
  if pattern = "" then .error "http: invalid pattern"
  else if !validPattern mux.rules pattern then
    .error ("parsing " ++ pattern ++ ": " ++ (mux.rules.parseError pattern).getD "")
  else if pattern ∈ mux.patterns then
    .error ("http: multiple registrations for " ++ pattern)
  else if mux.patterns.any (fun q => mux.rules.conflicts pattern q) then
    .error ("pattern " ++ pattern ++ " conflicts with a registered pattern")
  else .ok ⟨mux.rules, mux.patterns ++ [pattern]⟩

/-- The state of the process that `NewPrometheusMonitor` reads and writes: the default
mux of net/http, the default registerer of Prometheus, and the addresses for which a
goroutine running `http.ListenAndServe` has been started. -/
structure Process where
  DefaultServeMux : ServeMux
  DefaultRegisterer : Registry
  serving : List String

/-- A process in which nothing has been registered, built with the net/http release
of the given rules. -/
def Process.fresh (rules : MuxRules) : Process :=
  { DefaultServeMux := ⟨rules, []⟩, DefaultRegisterer := ⟨[]⟩, serving := [] }

/-- What a call of `NewPrometheusMonitor` leaves: the process state, the registry the
call created (the one its HTTP handler serves) and the monitor returned. -/
structure Built where
  process : Process
  registry : Registry
  monitor : PrometheusMonitor

/-- The function `NewPrometheusMonitor`, statement by statement; a panic is an error.
The goroutine it starts runs concurrently and is only recorded. -/
def NewPrometheusMonitor (proc : Process) (addr path : String) : Except String Built := do
  let registry := NewRegistry
  let mux ← proc.DefaultServeMux.Handle path
  let serving := proc.serving ++ [addr]
  let r1 ← promauto.NewGauge proc.DefaultRegisterer
    { Name := "receive_sync_event_count"
      Help := "The SyncEvent count that session had received" }
  let r2 ← promauto.NewGauge r1.1
    { Name := "send_sync_event_count"
      Help := "The SyncEvent count that session had sent" }
  let r3 ← promauto.NewGauge r2.1
    { Name := "out_flow_bytes"
      Help := "The out flow in bytes that session had sent" }
  let r4 ← promauto.NewGauge r3.1
    { Name := "in_flow_bytes"
      Help := "The in flow in bytes that session had receive" }
  let r5 ← promauto.NewGauge r4.1
    { Name := "send_queue_count"
      Help := "The pending count of send queue" }
  let r6 ← promauto.NewGauge r5.1
    { Name := "receive_queue_count"
      Help := "The pending count of receive queue" }
  let r7 ← promauto.NewGauge r6.1
    { Name := "alloc_shm_error_count"
      Help := "The error count of allocating share memory" }
  let r8 ← promauto.NewGauge r7.1
    { Name := "fallback_write_count"
      Help := "The count of the fallback data write to unix/tcp connection" }
  let r9 ← promauto.NewGauge r8.1
    { Name := "fallback_read_count"
      Help := "The error count of receiving fallback data from unix/tcp connection every period" }
  let r10 ← promauto.NewGauge r9.1
    { Name := "event_conn_error_count"
      Help := "The error count of unix/tcp connection which usually happened in that the peer\x27s process exit(crashed or other reason)" }
  let r11 ← promauto.NewGauge r10.1
    { Name := "queue_full_error_count"
      Help := "The error count due to the IO-Queue(SendQueue or ReceiveQueue) is full which usually happened in that the peer was busy" }
  let r12 ← promauto.NewGauge r11.1
    { Name := "active_stream_count"
      Help := "Current all active stream count" }
  let r13 ← promauto.NewGauge r12.1
    { Name := "hot_restart_success_count"
      Help := "The successful count of hot restart" }
  let r14 ← promauto.NewGauge r13.1
    { Name := "hot_restart_error_count"
      Help := "The failed count of hot restart" }
  let r15 ← promauto.NewGauge r14.1
    { Name := "capacity_of_share_memory"
      Help := "The capacity of the share memory in bytes" }
  let r16 ← promauto.NewGauge r15.1
    { Name := "all_in_used_share_memory"
      Help := "The amount of share memory in bytes that is currently in use" }
  let registry ← registry.MustRegister
    [r1.2, r2.2, r3.2, r4.2, r5.2, r6.2, r7.2, r8.2, r9.2, r10.2, r11.2, r12.2, r13.2,
      r14.2, r15.2, r16.2]
  return {
    process := { DefaultServeMux := mux, DefaultRegisterer := r16.1, serving := serving }
    registry := registry
    monitor := {
      receiveSyncEventCount := r1.2
      sendSyncEventCount := r2.2
      outFlowBytes := r3.2
      inFlowBytes := r4.2
      sendQueueCount := r5.2
      receiveQueueCount := r6.2
      allocShmErrorCount := r7.2
      fallbackWriteCount := r8.2
      fallbackReadCount := r9.2
      eventConnErrorCount := r10.2
      queueFullErrorCount := r11.2
      activeStreamCount := r12.2
      hotRestartSuccessCount := r13.2
      hotRestartErrorCount := r14.2
      capacityOfShareMemory := r15.2
      allInUsedShareMemory := r16.2
      MonitorInfo := some [] } }

/-! ## Formatting: decimal digits, the verb `%f`, `time.Format` -/

/-- Decimal digits of `n`, most significant first, pushed in front of `acc`; `fuel`
bounds the number of digits. -/
def digitsAux : Nat → Nat → List Nat → List Nat
  | 0, _, acc => acc
  | fuel + 1, n, acc =>
    if n < 10 then n :: acc else digitsAux fuel (n / 10) (n % 10 :: acc)

/-- The decimal digits of `n`, most significant first; `[0]` for zero. -/
def decimalDigits (n : Nat) : List Nat := digitsAux (n + 1) n []

/-- The character of a decimal digit, `'0' + d`. -/
def digitChar (d : Nat) : Char := Char.ofNat (48 + d)

/-- The value of a decimal digit character, `c - '0'`. -/
def digitValue (c : Char) : Nat := c.toNat - 48

/-- The number a list of decimal digits denotes, most significant first. -/
def digitsValue (ds : List Nat) : Nat := ds.foldl (fun a d => a * 10 + d) 0

/-- The verb `%f` on a float64 (`strconv.FormatFloat(v, 'f', 6, 64)`): the exactly
rounded decimal with six fractional digits; for an integral value, its decimal digits
followed by `.000000`. -/
def formatF (v : Float64) : String :=
  String.mk ((decimalDigits v.val).map digitChar ++ ".000000".data)

/-- The helper `appendInt(b, x, width)` of package time: the decimal digits of `x`,
zero-padded on the left to `width` digits. -/
def appendInt (x width : Nat) : List Nat :=
  List.replicate (width - (decimalDigits x).length) 0 ++ decimalDigits x

/-- A wall-clock reading `time.Time` in the local zone: calendar fields and the
nanosecond within the second. Two readings taken in one zone at different instants
differ in some field. -/
structure Time where
  year : Nat
  month : Nat
  day : Nat
  hour : Nat
  minute : Nat
  second : Nat
  nanosecond : Nat
deriving DecidableEq, Repr

/-- A reading a clock can give: month 1 to 12, day 1 to 31, hour below 24, minute and
second below 60, nanosecond below 10^9. -/
def Time.Valid (t : Time) : Prop :=
  1 ≤ t.month ∧ t.month ≤ 12 ∧ 1 ≤ t.day ∧ t.day ≤ 31 ∧ t.hour < 24 ∧ t.minute < 60 ∧
    t.second < 60 ∧ t.nanosecond < 10 ^ 9

instance (t : Time) : Decidable t.Valid := by
  unfold Time.Valid
  infer_instance

/-- The calendar second of a reading: everything but the nanosecond. -/
def Time.calendarSecond (t : Time) : Nat × Nat × Nat × Nat × Nat × Nat :=
  (t.year, t.month, t.day, t.hour, t.minute, t.second)

/-- The call `t.Format("20060102150405")`: the year on at least four digits, then
month, day, hour, minute and second on two digits each. -/
def Time.Format (t : Time) : String :=
  String.mk ((appendInt t.year 4 ++ appendInt t.month 2 ++ appendInt t.day 2 ++
    appendInt t.hour 2 ++ appendInt t.minute 2 ++ appendInt t.second 2).map digitChar)

/-! ## Flush -/

/-- What the environment decides in one call of `Flush`: the clock reading, the outcome
of `os.Create` (an error text when it fails), for each `Fprintf` in turn whether its
write reaches the file, and the order in which `range` visits the entries of a map. -/
structure FlushEnv where
  now : Time
  createErr : Option String
  writeOk : Nat → Bool
  rangeOrder : GoMap → GoMap

/-- What one call of `Flush` does: the error it returns (`none` is nil), the name it
passes to `os.Create`, whether the file was created, the lines it writes with
`Fprintf`, in order, and those of them that the file system accepted. -/
structure FlushResult where
  err : Option String
  name : String
  created : Bool
  lines : List String
  written : List String
deriving DecidableEq, Repr

/-- The text `fmt.Sprintf("%s: %f\n", key, value)` of one entry. -/
def formatEntry (kv : String × Float64) : String :=
  kv.1 ++ ": " ++ formatF kv.2 ++ "\n"

/-- The lines among `lines`, numbered from `i`, whose write succeeds. -/
def keepWritten (writeOk : Nat → Bool) : Nat → List String → List String
  | _, [] => []
  | i, l :: ls => if writeOk i then l :: keepWritten writeOk (i + 1) ls
    else keepWritten writeOk (i + 1) ls

/-- The method `Flush`: returns the monitor after the call and what the call did. The
results of `Fprintf` and of the deferred `Close` are discarded, as in the source. -/
def Flush (p : PrometheusMonitor) (env : FlushEnv) : PrometheusMonitor × FlushResult :=
  let name := "MonitorInfo_" ++ env.now.Format ++ ".log"
  match env.createErr with
  | some e =>
    (p, { err := some ("failed to create file: " ++ e), name := name, created := false,
          lines := [], written := [] })
  | none =>
    let lines := (env.rangeOrder (p.MonitorInfo.getD [])).map formatEntry
    (p, { err := none, name := name, created := true, lines := lines,
          written := keepWritten env.writeOk 0 lines })

/-! ## Reading a line of the log back -/

/-- Splits at the first occurrence of a colon followed by a space. -/
def splitColonSpace : List Char → Option (List Char × List Char)
  | [] => none
  | c :: rest =>
    if c = ':' ∧ rest.head? = some ' ' then some ([], rest.tail)
    else (splitColonSpace rest).map (fun kv => (c :: kv.1, kv.2))

/-- Reads a fixed-point decimal `digits.digits`; the value is the float64 nearest to
the number written (`strconv.ParseFloat`). A decimal with a non-zero fractional part
denotes no integral float64 and has no value here. -/
def parseDecimal (cs : List Char) : Option Float64 :=
  let ip := cs.takeWhile Char.isDigit
  match cs.dropWhile Char.isDigit with
  | '.' :: fp =>
    if ip ≠ [] ∧ fp ≠ [] ∧ fp.all (fun c => c = '0') then
      some (float64 (digitsValue (ip.map digitValue)))
    else none
  | _ => none

/-- Reads one line `<key>: <value>\n` of the log: the key is what precedes the first
colon-space, the value the decimal between it and the end of the line. -/
def parseLine (line : String) : Option (String × Float64) :=
  match splitColonSpace line.data with
  | none => none
  | some (k, rest) =>
    if rest.getLast? = some '\n' then
      (parseDecimal rest.dropLast).map (fun v => (String.mk k, v))
    else none

/-- A text in fixed-point decimal with six fractional digits and no exponent: one or
more digits, a point, six digits. -/
def isFixedPoint6 (s : String) : Bool :=
  let ip := s.data.takeWhile Char.isDigit
  match s.data.dropWhile Char.isDigit with
  | '.' :: fp => !ip.isEmpty && fp.length = 6 && fp.all Char.isDigit
  | _ => false

/-! ## Reachable monitors -/

/-- The monitor states reachable from `NewPrometheusMonitor` by calls of
`OnEmitSessionMetrics`. -/
inductive Reachable : PrometheusMonitor → Prop
  | init (proc : Process) (addr path : String) (b : Built) :
      NewPrometheusMonitor proc addr path = .ok b → Reachable b.monitor
  | emit (p q : PrometheusMonitor) (pm : PerformanceMetrics) (sm : StabilityMetrics)
      (shm : ShareMemoryMetrics) (session : Option Session) :
      Reachable p → OnEmitSessionMetrics p pm sm shm session = .ok q → Reachable q

/-- The sixteen fields of a snapshot, in the order `OnEmitSessionMetrics` stores them:
the key of the map entry and the integer of the snapshot field stored under it. -/
def snapshotFields (pm : PerformanceMetrics) (sm : StabilityMetrics)
    (shm : ShareMemoryMetrics) : List (String × Nat) :=
  [("receiveSyncEventCount", pm.ReceiveSyncEventCount),
   ("sendSyncEventCount", pm.SendSyncEventCount),
   ("outFlowBytes", pm.OutFlowBytes),
   ("inFlowBytes", pm.InFlowBytes),
   ("sendQueueCount", pm.SendQueueCount),
   ("receiveQueueCount", pm.ReceiveQueueCount),
   ("allocShmErrorCount", sm.AllocShmErrorCount),
   ("fallbackWriteCount", sm.FallbackWriteCount),
   ("fallbackReadCount", sm.FallbackReadCount),
   ("eventConnErrorCount", sm.EventConnErrorCount),
   ("queueFullErrorCount", sm.QueueFullErrorCount),
   ("activeStreamCount", sm.ActiveStreamCount),
   ("hotRestartSuccessCount", sm.HotRestartSuccessCount),
   ("hotRestartErrorCount", sm.HotRestartErrorCount),
   ("capacityOfShareMemory", shm.CapacityOfShareMemoryInBytes),
   ("allInUsedShareMemory", shm.AllInUsedShareMemoryInBytes)]

/-- The entries `OnEmitSessionMetrics` writes for a snapshot: each field converted to
float64 under its key. -/
def snapshotEntries (pm : PerformanceMetrics) (sm : StabilityMetrics)
    (shm : ShareMemoryMetrics) : GoMap :=
  (snapshotFields pm sm shm).map (fun kn => (kn.1, float64 kn.2))

/-! ## The snapshot of the test `TestOnEmitSessionMetricsAndFlush` -/

/-- The performance metrics of the test. -/
def testPerformance : PerformanceMetrics :=
  { ReceiveSyncEventCount := 10, SendSyncEventCount := 20, OutFlowBytes := 30,
    InFlowBytes := 40, SendQueueCount := 50, ReceiveQueueCount := 60 }

/-- The stability metrics of the test. -/
def testStability : StabilityMetrics :=
  { AllocShmErrorCount := 1, FallbackWriteCount := 2, FallbackReadCount := 3,
    EventConnErrorCount := 4, QueueFullErrorCount := 5, ActiveStreamCount := 6,
    HotRestartSuccessCount := 7, HotRestartErrorCount := 8 }

/-- The share memory metrics of the test. -/
def testShareMemory : ShareMemoryMetrics :=
  { CapacityOfShareMemoryInBytes := 1024 * 1024, AllInUsedShareMemoryInBytes := 512 * 1024 }

/-! ## Closed forms and fixtures used in the statements and proofs -/

/-- The sixteen gauge fields of a monitor, in the order of the struct. -/
def PrometheusMonitor.gauges (p : PrometheusMonitor) : List (Option Gauge) :=
  [p.receiveSyncEventCount, p.sendSyncEventCount, p.outFlowBytes, p.inFlowBytes,
   p.sendQueueCount, p.receiveQueueCount, p.allocShmErrorCount, p.fallbackWriteCount,
   p.fallbackReadCount, p.eventConnErrorCount, p.queueFullErrorCount, p.activeStreamCount,
   p.hotRestartSuccessCount, p.hotRestartErrorCount, p.capacityOfShareMemory,
   p.allInUsedShareMemory]

/-- The gauge field `g` holds a gauge declared under `name` whose value is `v`, and the
entry `key` of the map `m` is that same value. -/
def sinksAgree (g : Option Gauge) (name : String) (m : Option GoMap) (key : String)
    (v : Float64) : Prop :=
  match g with
  | none => False
  | some g0 => g0.opts.Name = name ∧ g0.value = v ∧ mapLookup m key = some g0.value

instance (g : Option Gauge) (name : String) (m : Option GoMap) (key : String)
    (v : Float64) : Decidable (sinksAgree g name m key v) := by
  unfold sinksAgree
  split <;> infer_instance

/-- The zero value `PrometheusMonitor{}`: every field nil. -/
def nilMonitor : PrometheusMonitor :=
  ⟨none, none, none, none, none, none, none, none, none, none, none, none, none, none, none,
    none, none⟩

/-- What the first call `NewPrometheusMonitor("localhost:9090", "/metrics")` of the
tests leaves in a fresh process. -/
def testBuilt : Built :=
  match NewPrometheusMonitor (Process.fresh MuxRules.classic) "localhost:9090" "/metrics" with
  | .ok b => b
  | .error _ => ⟨Process.fresh MuxRules.classic, NewRegistry, nilMonitor⟩

/-- The monitor `NewPrometheusMonitor` returns; it depends neither on the process nor
on the address and the path. -/
def initialMonitor : PrometheusMonitor := testBuilt.monitor

/-- A gauge field with its value replaced. -/
def withValue (g : Option Gauge) (v : Float64) : Option Gauge :=
  g.map (fun g0 => { g0 with value := v })

/-- The monitor `p` with the values of a snapshot in its gauges and in its map. -/
def emitted (p : PrometheusMonitor) (pm : PerformanceMetrics) (sm : StabilityMetrics)
    (shm : ShareMemoryMetrics) : PrometheusMonitor :=
  { receiveSyncEventCount :=
      withValue p.receiveSyncEventCount (float64 pm.ReceiveSyncEventCount)
    sendSyncEventCount := withValue p.sendSyncEventCount (float64 pm.SendSyncEventCount)
    outFlowBytes := withValue p.outFlowBytes (float64 pm.OutFlowBytes)
    inFlowBytes := withValue p.inFlowBytes (float64 pm.InFlowBytes)
    sendQueueCount := withValue p.sendQueueCount (float64 pm.SendQueueCount)
    receiveQueueCount := withValue p.receiveQueueCount (float64 pm.ReceiveQueueCount)
    allocShmErrorCount := withValue p.allocShmErrorCount (float64 sm.AllocShmErrorCount)
    fallbackWriteCount := withValue p.fallbackWriteCount (float64 sm.FallbackWriteCount)
    fallbackReadCount := withValue p.fallbackReadCount (float64 sm.FallbackReadCount)
    eventConnErrorCount := withValue p.eventConnErrorCount (float64 sm.EventConnErrorCount)
    queueFullErrorCount := withValue p.queueFullErrorCount (float64 sm.QueueFullErrorCount)
    activeStreamCount := withValue p.activeStreamCount (float64 sm.ActiveStreamCount)
    hotRestartSuccessCount :=
      withValue p.hotRestartSuccessCount (float64 sm.HotRestartSuccessCount)
    hotRestartErrorCount :=
      withValue p.hotRestartErrorCount (float64 sm.HotRestartErrorCount)
    capacityOfShareMemory :=
      withValue p.capacityOfShareMemory (float64 shm.CapacityOfShareMemoryInBytes)
    allInUsedShareMemory :=
      withValue p.allInUsedShareMemory (float64 shm.AllInUsedShareMemoryInBytes)
    MonitorInfo := some (snapshotEntries pm sm shm) }

/-- The monitor of the test after its call of `OnEmitSessionMetrics`. -/
def testMonitor : PrometheusMonitor :=
  emitted initialMonitor testPerformance testStability testShareMemory

/-- A clock reading: 1 July 2023, 12:00:00, with the given nanosecond. -/
def noonAt (nanosecond : Nat) : Time :=
  { year := 2023, month := 7, day := 1, hour := 12, minute := 0, second := 0,
    nanosecond := nanosecond }

/-- An environment in which the file is created and every write succeeds, `range`
visiting the entries in their stored order. -/
def healthyEnv (now : Time) : FlushEnv :=
  { now := now, createErr := none, writeOk := fun _ => true, rangeOrder := fun m => m }

/-- An environment in which the file is created and then every write fails, as on a
full disk. -/
def diskFullEnv : FlushEnv :=
  { now := noonAt 0, createErr := none, writeOk := fun _ => false, rangeOrder := fun m => m }

/-- An environment in which the file is created, the first write fails and the later
ones succeed. -/
def firstWriteFailsEnv : FlushEnv :=
  { now := noonAt 0, createErr := none, writeOk := fun i => decide (i ≠ 0),
    rangeOrder := fun m => m }

/-- An environment in which the file cannot be created. -/
def deniedEnv : FlushEnv :=
  { now := noonAt 0, createErr := some "open MonitorInfo_20230701120000.log: permission denied",
    writeOk := fun _ => true, rangeOrder := fun m => m }

/-! ## The rounding of `float64` -/

theorem bitLenAux_le_iff (fuel : Nat) : ∀ n k : Nat, n ≤ fuel →
    (bitLenAux fuel n ≤ k ↔ n < 2 ^ k) := by
  induction fuel with
  | zero =>
    intro n k hn
    have h0 : n = 0 := by omega
    subst h0
    simp [bitLenAux]
  | succ fuel ih =>
    intro n k hn
    by_cases h0 : n = 0
    · subst h0
      simp [bitLenAux]
    · rw [bitLenAux, if_neg h0]
      cases k with
      | zero => simp; omega
      | succ k =>
        have hdiv : n / 2 ≤ fuel := by omega
        have := ih (n / 2) k hdiv
        rw [Nat.add_le_add_iff_right, this, pow_succ]
        omega

theorem bitLen_le_iff (n k : Nat) : bitLen n ≤ k ↔ n < 2 ^ k :=
  bitLenAux_le_iff n n k (le_refl n)

theorem roundToFloat64_of_lt (n : Nat) (h : n < 2 ^ 53) : roundToFloat64 n = n := by
  unfold roundToFloat64
  rw [if_pos ((bitLen_le_iff n 53).mpr h)]

/-- A multiple of a power of two by a significand of at most 2^53 is left unchanged. -/
theorem roundToFloat64_mul_pow (q s : Nat) (hq : q ≤ 2 ^ 53) :
    roundToFloat64 (q * 2 ^ s) = q * 2 ^ s := by
  unfold roundToFloat64
  by_cases hb : bitLen (q * 2 ^ s) ≤ 53
  · rw [if_pos hb]
  · rw [if_neg hb]
    have hb1 : 54 ≤ bitLen (q * 2 ^ s) := by omega
    set t := bitLen (q * 2 ^ s) - 53 with ht
    have ht1 : 1 ≤ t := by omega
    -- the shift is at most `s + 1`, and equal to it only for `q = 2 ^ 53`
    have hlt : q * 2 ^ s < 2 ^ (54 + s) := by
      have : q * 2 ^ s ≤ 2 ^ 53 * 2 ^ s := Nat.mul_le_mul_right _ hq
      have h2 : 2 ^ (54 + s) = 2 * (2 ^ 53 * 2 ^ s) := by rw [← pow_add, ← pow_succ']; congr 1; omega
      have hpos : 0 < 2 ^ 53 * 2 ^ s := by positivity
      omega
    have hble : bitLen (q * 2 ^ s) ≤ 54 + s := (bitLen_le_iff _ _).mpr hlt
    have hdvd : 2 ^ t ∣ q * 2 ^ s := by
      by_cases hts : t ≤ s
      · exact Dvd.dvd.mul_left (pow_dvd_pow 2 hts) q
      · have hts1 : t = s + 1 := by omega
        have hnot : ¬ bitLen (q * 2 ^ s) ≤ 53 + s := by omega
        rw [bitLen_le_iff] at hnot
        have hq53 : q = 2 ^ 53 := by
          by_contra hne
          have hlt2 : q < 2 ^ 53 := lt_of_le_of_ne hq hne
          apply hnot
          rw [pow_add]
          exact Nat.mul_lt_mul_of_pos_right hlt2 (by positivity)
        rw [hq53, hts1, ← pow_add]
        exact pow_dvd_pow 2 (by omega)
    have hmod : q * 2 ^ s % 2 ^ t = 0 := Nat.mod_eq_zero_of_dvd hdvd
    have hhalf : 0 < 2 ^ (t - 1) := by positivity
    simp only [hmod, hhalf, if_true]
    exact Nat.div_mul_cancel hdvd

theorem roundToFloat64_of_le (n : Nat) (h : n ≤ 2 ^ 53) : roundToFloat64 n = n := by
  have := roundToFloat64_mul_pow n 0 h
  simpa using this

/-- The result of the rounding is a significand of at most 2^53 times a power of two. -/
theorem roundToFloat64_shape (n : Nat) :
    ∃ q s, q ≤ 2 ^ 53 ∧ roundToFloat64 n = q * 2 ^ s := by
  by_cases hb : bitLen n ≤ 53
  · refine ⟨n, 0, ?_, ?_⟩
    · exact le_of_lt ((bitLen_le_iff n 53).mp hb)
    · have := roundToFloat64_of_lt n ((bitLen_le_iff n 53).mp hb)
      simpa using this
  · have hq : n / 2 ^ (bitLen n - 53) < 2 ^ 53 := by
      rw [Nat.div_lt_iff_lt_mul (by positivity), ← pow_add]
      have : 53 + (bitLen n - 53) = bitLen n := by omega
      rw [this]
      exact (bitLen_le_iff n _).mp (le_refl _)
    unfold roundToFloat64
    rw [if_neg hb]
    dsimp only
    split_ifs
    · exact ⟨_, _, le_of_lt hq, rfl⟩
    · exact ⟨_, _, le_of_lt hq, rfl⟩
    · exact ⟨_, _, hq, rfl⟩

theorem roundToFloat64_idem (n : Nat) : roundToFloat64 (roundToFloat64 n) = roundToFloat64 n := by
  obtain ⟨q, s, hq, h⟩ := roundToFloat64_shape n
  rw [h]
  exact roundToFloat64_mul_pow q s hq

/-- Above 2^53 the conversion rounds: 2^53 + 1 becomes 2^53, and the largest uint64
becomes 2^64. -/
theorem roundToFloat64_above : roundToFloat64 (2 ^ 53 + 1) = 2 ^ 53 ∧
    roundToFloat64 (2 ^ 53 + 3) = 2 ^ 53 + 4 ∧ roundToFloat64 (2 ^ 64 - 1) = 2 ^ 64 :=
  ⟨by decide, by decide, by decide⟩

/-! ## Decimal digits, `%f` and reading a line back -/

theorem digitsValue_digitsAux (fuel : Nat) : ∀ (n : Nat) (acc : List Nat), n < fuel →
    (digitsAux fuel n acc).foldl (fun a d => a * 10 + d) 0 =
      acc.foldl (fun a d => a * 10 + d) n := by
  induction fuel with
  | zero => intro n acc h; omega
  | succ fuel ih =>
    intro n acc h
    rw [digitsAux]
    split_ifs with h10
    · simp
    · rw [ih (n / 10) (n % 10 :: acc) (by omega)]
      have : n / 10 * 10 + n % 10 = n := by omega
      simp [this]

theorem digitsValue_decimalDigits (n : Nat) : digitsValue (decimalDigits n) = n := by
  unfold digitsValue decimalDigits
  rw [digitsValue_digitsAux (n + 1) n [] (by omega)]
  rfl

theorem digitsAux_lt_ten (fuel : Nat) : ∀ (n : Nat) (acc : List Nat), n < fuel →
    (∀ d ∈ acc, d < 10) → ∀ d ∈ digitsAux fuel n acc, d < 10 := by
  induction fuel with
  | zero => intro n acc h; omega
  | succ fuel ih =>
    intro n acc h hacc
    rw [digitsAux]
    split_ifs with h10
    · intro d hd
      rcases List.mem_cons.mp hd with rfl | hd
      · exact h10
      · exact hacc d hd
    · apply ih (n / 10) (n % 10 :: acc) (by omega)
      intro d hd
      rcases List.mem_cons.mp hd with rfl | hd
      · omega
      · exact hacc d hd

theorem decimalDigits_lt_ten (n : Nat) : ∀ d ∈ decimalDigits n, d < 10 :=
  digitsAux_lt_ten (n + 1) n [] (by omega) (by simp)

theorem digitsAux_ne_nil (fuel : Nat) : ∀ (n : Nat) (acc : List Nat), n < fuel →
    digitsAux fuel n acc ≠ [] := by
  induction fuel with
  | zero => intro n acc h; omega
  | succ fuel ih =>
    intro n acc h
    rw [digitsAux]
    split_ifs with h10
    · simp
    · exact ih (n / 10) (n % 10 :: acc) (by omega)

theorem decimalDigits_ne_nil (n : Nat) : decimalDigits n ≠ [] :=
  digitsAux_ne_nil (n + 1) n [] (by omega)

theorem digitValue_digitChar (d : Nat) (h : d < 10) : digitValue (digitChar d) = d := by
  interval_cases d <;> rfl

theorem isDigit_digitChar (d : Nat) (h : d < 10) : (digitChar d).isDigit = true := by
  interval_cases d <;> rfl

theorem map_digitValue_digitChar (ds : List Nat) (h : ∀ d ∈ ds, d < 10) :
    (ds.map digitChar).map digitValue = ds := by
  induction ds with
  | nil => rfl
  | cons d ds ih =>
    simp only [List.map_cons]
    rw [digitValue_digitChar d (h d (List.mem_cons_self _ _)),
      ih (fun x hx => h x (List.mem_cons_of_mem _ hx))]

theorem takeWhile_digits (ds : List Nat) (rest : List Char) (h : ∀ d ∈ ds, d < 10) :
    (ds.map digitChar ++ '.' :: rest).takeWhile Char.isDigit = ds.map digitChar := by
  induction ds with
  | nil => rfl
  | cons d ds ih =>
    simp only [List.map_cons, List.cons_append]
    rw [List.takeWhile_cons, isDigit_digitChar d (h d (List.mem_cons_self _ _))]
    simp only [if_true]
    rw [ih (fun x hx => h x (List.mem_cons_of_mem _ hx))]

theorem dropWhile_digits (ds : List Nat) (rest : List Char) (h : ∀ d ∈ ds, d < 10) :
    (ds.map digitChar ++ '.' :: rest).dropWhile Char.isDigit = '.' :: rest := by
  induction ds with
  | nil => rfl
  | cons d ds ih =>
    simp only [List.map_cons, List.cons_append]
    rw [List.dropWhile_cons, isDigit_digitChar d (h d (List.mem_cons_self _ _))]
    simp only [if_true]
    rw [ih (fun x hx => h x (List.mem_cons_of_mem _ hx))]

theorem parseDecimal_formatF (v : Float64) (hv : roundToFloat64 v.val = v.val) :
    parseDecimal (formatF v).data = some v := by
  have hlt := decimalDigits_lt_ten v.val
  have hne : (decimalDigits v.val).map digitChar ≠ [] := by
    simpa using decimalDigits_ne_nil v.val
  have hdata : (formatF v).data =
      (decimalDigits v.val).map digitChar ++ '.' :: "000000".data := rfl
  unfold parseDecimal
  rw [hdata, takeWhile_digits _ _ hlt, dropWhile_digits _ _ hlt]
  simp only
  rw [if_pos ⟨hne, by decide, by decide⟩, map_digitValue_digitChar _ hlt,
    digitsValue_decimalDigits]
  simp [float64, hv]

theorem isFixedPoint6_formatF (v : Float64) : isFixedPoint6 (formatF v) = true := by
  have hlt := decimalDigits_lt_ten v.val
  have hne : (decimalDigits v.val).map digitChar ≠ [] := by
    simpa using decimalDigits_ne_nil v.val
  have hdata : (formatF v).data =
      (decimalDigits v.val).map digitChar ++ '.' :: "000000".data := rfl
  unfold isFixedPoint6
  rw [hdata, takeWhile_digits _ _ hlt, dropWhile_digits _ _ hlt]
  simp only
  cases hl : (decimalDigits v.val).map digitChar with
  | nil => exact absurd hl hne
  | cons c cs => rfl

theorem splitColonSpace_key (k rest : List Char) (hk : ':' ∉ k) :
    splitColonSpace (k ++ ':' :: ' ' :: rest) = some (k, rest) := by
  induction k with
  | nil => simp [splitColonSpace]
  | cons c k ih =>
    have hc : c ≠ ':' := fun h => hk (by simp [h])
    have hk2 : ':' ∉ k := fun h => hk (List.mem_cons_of_mem _ h)
    rw [List.cons_append, splitColonSpace, if_neg (fun h => hc h.1), ih hk2]
    rfl

theorem parseLine_formatEntry (k : String) (v : Float64) (hk : ':' ∉ k.data)
    (hv : roundToFloat64 v.val = v.val) : parseLine (formatEntry (k, v)) = some (k, v) := by
  have hdata : (formatEntry (k, v)).data =
      k.data ++ ':' :: ' ' :: ((formatF v).data ++ ['\n']) := by
    simp [formatEntry, String.data_append]
  unfold parseLine
  rw [hdata, splitColonSpace_key _ _ hk]
  simp only [List.getLast?_concat, List.dropLast_concat, if_true]
  rw [parseDecimal_formatF v hv]
  rfl

/-! ## `time.Format` and the file name -/

theorem foldl_replicate_zero (k : Nat) :
    (List.replicate k 0).foldl (fun a d => a * 10 + d) 0 = 0 := by
  induction k with
  | zero => rfl
  | succ k ih => simpa [List.replicate_succ] using ih

theorem digitsValue_appendInt (x width : Nat) : digitsValue (appendInt x width) = x := by
  have h := digitsValue_decimalDigits x
  unfold digitsValue at h ⊢
  unfold appendInt
  rw [List.foldl_append, foldl_replicate_zero, h]

theorem appendInt_lt_ten (x width : Nat) : ∀ d ∈ appendInt x width, d < 10 := by
  intro d hd
  unfold appendInt at hd
  rcases List.mem_append.mp hd with h | h
  · have := List.eq_of_mem_replicate h
    omega
  · exact decimalDigits_lt_ten x d h

theorem length_appendInt_two : ∀ x < 100, (appendInt x 2).length = 2 := by
  decide

theorem appendInt_injective (x y width : Nat) (h : appendInt x width = appendInt y width) :
    x = y := by
  rw [← digitsValue_appendInt x width, ← digitsValue_appendInt y width, h]

/-- The digits `Time.Format` writes, before they are turned into characters. -/
theorem Format_data (t : Time) : t.Format.data =
    (appendInt t.year 4 ++ appendInt t.month 2 ++ appendInt t.day 2 ++
      appendInt t.hour 2 ++ appendInt t.minute 2 ++ appendInt t.second 2).map digitChar :=
  rfl

theorem Format_injective (t u : Time) (ht : t.Valid) (hu : u.Valid)
    (h : t.Format = u.Format) : t.calendarSecond = u.calendarSecond := by
  obtain ⟨_, ht2, _, ht4, ht5, ht6, ht7, _⟩ := ht
  obtain ⟨_, hu2, _, hu4, hu5, hu6, hu7, _⟩ := hu
  have hd : t.Format.data = u.Format.data := by rw [h]
  rw [Format_data, Format_data] at hd
  have hlt : ∀ (a b c d e f : Nat), ∀ x ∈ appendInt a 4 ++ appendInt b 2 ++ appendInt c 2 ++
      appendInt d 2 ++ appendInt e 2 ++ appendInt f 2, x < 10 := by
    intro a b c d e f x hx
    simp only [List.mem_append] at hx
    rcases hx with ((((hx | hx) | hx) | hx) | hx) | hx <;> exact appendInt_lt_ten _ _ x hx
  have hl := congrArg (List.map digitValue) hd
  rw [map_digitValue_digitChar _ (hlt _ _ _ _ _ _), map_digitValue_digitChar _ (hlt _ _ _ _ _ _)]
    at hl
  have len2 : ∀ x y, x < 100 → y < 100 → (appendInt x 2).length = (appendInt y 2).length := by
    intro x y hx hy
    rw [length_appendInt_two x hx, length_appendInt_two y hy]
  obtain ⟨hl, hs⟩ := List.append_inj' hl (len2 _ _ (by omega) (by omega))
  obtain ⟨hl, hmi⟩ := List.append_inj' hl (len2 _ _ (by omega) (by omega))
  obtain ⟨hl, hh⟩ := List.append_inj' hl (len2 _ _ (by omega) (by omega))
  obtain ⟨hl, hday⟩ := List.append_inj' hl (len2 _ _ (by omega) (by omega))
  obtain ⟨hy, hmo⟩ := List.append_inj' hl (len2 _ _ (by omega) (by omega))
  unfold Time.calendarSecond
  rw [appendInt_injective _ _ _ hy, appendInt_injective _ _ _ hmo,
    appendInt_injective _ _ _ hday, appendInt_injective _ _ _ hh,
    appendInt_injective _ _ _ hmi, appendInt_injective _ _ _ hs]

theorem flushName_injective (a b : String)
    (h : "MonitorInfo_" ++ a ++ ".log" = "MonitorInfo_" ++ b ++ ".log") : a = b := by
  have hd := congrArg String.data h
  simp only [String.data_append, List.append_assoc] at hd
  have h1 := List.append_cancel_left hd
  have h2 := List.append_cancel_right h1
  exact String.ext h2

/-! ## The reachable monitor states -/

theorem bind_eq_ok {α β : Type} (x : Except String α) (f : α → Except String β) (b : β) :
    (x >>= f) = .ok b ↔ ∃ a, x = .ok a ∧ f a = .ok b := by
  cases x with
  | error e => simp [bind, Except.bind]
  | ok a => simp [bind, Except.bind]

theorem ok_bind {α β : Type} (a : α) (f : α → Except String β) :
    ((Except.ok a : Except String α) >>= f) = f a :=
  rfl

theorem promauto_NewGauge_ok (d : Registry) (o : GaugeOpts) (r : Registry × Option Gauge)
    (h : promauto.NewGauge d o = .ok r) :
    r.2 = some (NewGauge o) ∧ r.1.collectors = d.collectors ++ [o] := by
  unfold promauto.NewGauge at h
  simp only [Registry.MustRegister, Registry.Register, pure, Except.pure, bind_eq_ok] at h
  obtain ⟨a, ⟨a1, h1, h2⟩, h3⟩ := h
  split_ifs at h1
  cases h1
  cases h2
  cases h3
  exact ⟨rfl, rfl⟩

theorem emit_nonnil_empty (g1 g2 g3 g4 g5 g6 g7 g8 g9 g10 g11 g12 g13 g14 g15 g16 : Gauge)
    (pm : PerformanceMetrics) (sm : StabilityMetrics)
    (shm : ShareMemoryMetrics) (session : Option Session) :
    OnEmitSessionMetrics ⟨some g1, some g2, some g3, some g4, some g5, some g6, some g7,
      some g8, some g9, some g10, some g11, some g12, some g13, some g14, some g15, some g16,
      some []⟩ pm sm shm session =
    .ok (emitted ⟨some g1, some g2, some g3, some g4, some g5, some g6, some g7,
      some g8, some g9, some g10, some g11, some g12, some g13, some g14, some g15, some g16,
      some []⟩ pm sm shm) := by
  simp [OnEmitSessionMetrics, Gauge.Set, mapAssign, mapSet, emitted, withValue, snapshotEntries,
    snapshotFields, bind, Except.bind, pure, Except.pure]

theorem emit_nonnil_full (g1 g2 g3 g4 g5 g6 g7 g8 g9 g10 g11 g12 g13 g14 g15 g16 : Gauge)
    (pm0 : PerformanceMetrics) (sm0 : StabilityMetrics) (shm0 : ShareMemoryMetrics)
    (pm : PerformanceMetrics) (sm : StabilityMetrics)
    (shm : ShareMemoryMetrics) (session : Option Session) :
    OnEmitSessionMetrics ⟨some g1, some g2, some g3, some g4, some g5, some g6, some g7,
      some g8, some g9, some g10, some g11, some g12, some g13, some g14, some g15, some g16,
      some (snapshotEntries pm0 sm0 shm0)⟩ pm sm shm session =
    .ok (emitted ⟨some g1, some g2, some g3, some g4, some g5, some g6, some g7,
      some g8, some g9, some g10, some g11, some g12, some g13, some g14, some g15, some g16,
      some (snapshotEntries pm0 sm0 shm0)⟩ pm sm shm) := by
  simp [OnEmitSessionMetrics, Gauge.Set, mapAssign, mapSet, emitted, withValue, snapshotEntries,
    snapshotFields, bind, Except.bind, pure, Except.pure]

theorem testBuilt_eq :
    NewPrometheusMonitor (Process.fresh MuxRules.classic) "localhost:9090" "/metrics" =
      .ok testBuilt :=
  rfl

/-- The monitor a call returns: sixteen gauges under their names, holding 0, and an
empty map. -/
theorem initialMonitor_eq : ∃ h1 h2 h3 h4 h5 h6 h7 h8 h9 h10 h11 h12 h13 h14 h15 h16 : String,
    initialMonitor =
      ⟨some ⟨⟨"receive_sync_event_count", h1⟩, ⟨0⟩⟩, some ⟨⟨"send_sync_event_count", h2⟩, ⟨0⟩⟩,
       some ⟨⟨"out_flow_bytes", h3⟩, ⟨0⟩⟩, some ⟨⟨"in_flow_bytes", h4⟩, ⟨0⟩⟩,
       some ⟨⟨"send_queue_count", h5⟩, ⟨0⟩⟩, some ⟨⟨"receive_queue_count", h6⟩, ⟨0⟩⟩,
       some ⟨⟨"alloc_shm_error_count", h7⟩, ⟨0⟩⟩, some ⟨⟨"fallback_write_count", h8⟩, ⟨0⟩⟩,
       some ⟨⟨"fallback_read_count", h9⟩, ⟨0⟩⟩, some ⟨⟨"event_conn_error_count", h10⟩, ⟨0⟩⟩,
       some ⟨⟨"queue_full_error_count", h11⟩, ⟨0⟩⟩, some ⟨⟨"active_stream_count", h12⟩, ⟨0⟩⟩,
       some ⟨⟨"hot_restart_success_count", h13⟩, ⟨0⟩⟩,
       some ⟨⟨"hot_restart_error_count", h14⟩, ⟨0⟩⟩,
       some ⟨⟨"capacity_of_share_memory", h15⟩, ⟨0⟩⟩,
       some ⟨⟨"all_in_used_share_memory", h16⟩, ⟨0⟩⟩, some []⟩ :=
  ⟨_, _, _, _, _, _, _, _, _, _, _, _, _, _, _, _, rfl⟩

theorem emit_initialMonitor (pm : PerformanceMetrics) (sm : StabilityMetrics)
    (shm : ShareMemoryMetrics) (session : Option Session) :
    OnEmitSessionMetrics initialMonitor pm sm shm session =
      .ok (emitted initialMonitor pm sm shm) := by
  obtain ⟨h1, h2, h3, h4, h5, h6, h7, h8, h9, h10, h11, h12, h13, h14, h15, h16, h⟩ :=
    initialMonitor_eq
  rw [h]
  exact emit_nonnil_empty _ _ _ _ _ _ _ _ _ _ _ _ _ _ _ _ pm sm shm session

theorem emit_emitted (pm0 : PerformanceMetrics) (sm0 : StabilityMetrics)
    (shm0 : ShareMemoryMetrics) (pm : PerformanceMetrics) (sm : StabilityMetrics)
    (shm : ShareMemoryMetrics) (session : Option Session) :
    OnEmitSessionMetrics (emitted initialMonitor pm0 sm0 shm0) pm sm shm session =
      .ok (emitted initialMonitor pm sm shm) := by
  obtain ⟨h1, h2, h3, h4, h5, h6, h7, h8, h9, h10, h11, h12, h13, h14, h15, h16, h⟩ :=
    initialMonitor_eq
  rw [h]
  exact emit_nonnil_full _ _ _ _ _ _ _ _ _ _ _ _ _ _ _ _ pm0 sm0 shm0 pm sm shm session

theorem New_monitor (proc : Process) (addr path : String) (b : Built)
    (h : NewPrometheusMonitor proc addr path = .ok b) : b.monitor = initialMonitor := by
  unfold NewPrometheusMonitor at h
  simp only [bind_eq_ok, pure, Except.pure] at h
  obtain ⟨mux, -, r1, h1, r2, h2, r3, h3, r4, h4, r5, h5, r6, h6, r7, h7, r8, h8, r9, h9,
    r10, h10, r11, h11, r12, h12, r13, h13, r14, h14, r15, h15, r16, h16, reg, -, hb⟩ := h
  cases hb
  simp only [(promauto_NewGauge_ok _ _ _ h1).1, (promauto_NewGauge_ok _ _ _ h2).1,
    (promauto_NewGauge_ok _ _ _ h3).1, (promauto_NewGauge_ok _ _ _ h4).1,
    (promauto_NewGauge_ok _ _ _ h5).1, (promauto_NewGauge_ok _ _ _ h6).1,
    (promauto_NewGauge_ok _ _ _ h7).1, (promauto_NewGauge_ok _ _ _ h8).1,
    (promauto_NewGauge_ok _ _ _ h9).1, (promauto_NewGauge_ok _ _ _ h10).1,
    (promauto_NewGauge_ok _ _ _ h11).1, (promauto_NewGauge_ok _ _ _ h12).1,
    (promauto_NewGauge_ok _ _ _ h13).1, (promauto_NewGauge_ok _ _ _ h14).1,
    (promauto_NewGauge_ok _ _ _ h15).1, (promauto_NewGauge_ok _ _ _ h16).1]
  rfl

theorem reachable_cases (p : PrometheusMonitor) (h : Reachable p) :
    p = initialMonitor ∨ ∃ pm sm shm, p = emitted initialMonitor pm sm shm := by
  induction h with
  | init proc addr path b hb => exact Or.inl (New_monitor proc addr path b hb)
  | emit p q pm sm shm session _ hq ih =>
    right
    refine ⟨pm, sm, shm, ?_⟩
    rcases ih with rfl | ⟨pm0, sm0, shm0, rfl⟩
    · rw [emit_initialMonitor] at hq
      cases hq
      rfl
    · rw [emit_emitted] at hq
      cases hq
      rfl

theorem reachable_emit (p : PrometheusMonitor) (h : Reachable p) (pm : PerformanceMetrics)
    (sm : StabilityMetrics) (shm : ShareMemoryMetrics) (session : Option Session) :
    OnEmitSessionMetrics p pm sm shm session = .ok (emitted initialMonitor pm sm shm) := by
  rcases reachable_cases p h with rfl | ⟨pm0, sm0, shm0, rfl⟩
  · exact emit_initialMonitor pm sm shm session
  · exact emit_emitted pm0 sm0 shm0 pm sm shm session

/-- On the zero value of the struct the call panics at the first gauge. -/
theorem emit_nilMonitor (pm : PerformanceMetrics) (sm : StabilityMetrics)
    (shm : ShareMemoryMetrics) (session : Option Session) :
    OnEmitSessionMetrics nilMonitor pm sm shm session =
      .error "invalid memory address or nil pointer dereference" :=
  rfl

theorem reachable_initialMonitor : Reachable initialMonitor :=
  Reachable.init (Process.fresh MuxRules.classic) "localhost:9090" "/metrics" testBuilt
    testBuilt_eq

theorem reachable_testMonitor : Reachable testMonitor :=
  Reachable.emit initialMonitor testMonitor testPerformance testStability testShareMemory none
    reachable_initialMonitor (emit_initialMonitor _ _ _ _)

/-! ## Claims about `OnEmitSessionMetrics` -/

theorem lookup_snapshotEntries (pm : PerformanceMetrics) (sm : StabilityMetrics)
    (shm : ShareMemoryMetrics) : ∀ kn ∈ snapshotFields pm sm shm,
    mapLookup (some (snapshotEntries pm sm shm)) kn.1 = some (float64 kn.2) := by
  intro kn h
  simp only [snapshotFields, List.mem_cons, List.mem_singleton, List.not_mem_nil, or_false] at h
  rcases h with rfl | rfl | rfl | rfl | rfl | rfl | rfl | rfl | rfl | rfl | rfl | rfl | rfl |
    rfl | rfl | rfl <;>
  simp [mapLookup, snapshotEntries, snapshotFields, List.lookup]

theorem zip_snapshotFields (pm : PerformanceMetrics) (sm : StabilityMetrics)
    (shm : ShareMemoryMetrics) (pm2 : PerformanceMetrics) (sm2 : StabilityMetrics)
    (shm2 : ShareMemoryMetrics) :
    ∀ x ∈ List.zip (snapshotFields pm sm shm) (snapshotFields pm2 sm2 shm2),
      x.1 ∈ snapshotFields pm sm shm ∧ x.2 ∈ snapshotFields pm2 sm2 shm2 ∧ x.1.1 = x.2.1 := by
  intro x h
  simp only [snapshotFields, List.zip_cons_cons, List.zip_nil_right, List.mem_cons,
    List.not_mem_nil, or_false] at h
  rcases h with rfl | rfl | rfl | rfl | rfl | rfl | rfl | rfl | rfl | rfl | rfl | rfl | rfl |
    rfl | rfl | rfl <;>
  simp [snapshotFields]

/-- C1. From every monitor state reachable from `NewPrometheusMonitor` by calls of
`OnEmitSessionMetrics`, for every snapshot and every session argument (nil included),
the call returns and leaves in `MonitorInfo` exactly sixteen entries: each of the
sixteen keys holds the float64 conversion of its snapshot field. -/
theorem OnEmitSessionMetrics_MonitorInfo (p : PrometheusMonitor) (pm : PerformanceMetrics)
    (sm : StabilityMetrics) (shm : ShareMemoryMetrics) (session : Option Session)
    (hp : Reachable p) :
    ∃ q, OnEmitSessionMetrics p pm sm shm session = .ok q ∧
      mapLen q.MonitorInfo = 16 ∧
      mapLookup q.MonitorInfo "receiveSyncEventCount" =
        some (float64 pm.ReceiveSyncEventCount) ∧
      mapLookup q.MonitorInfo "sendSyncEventCount" = some (float64 pm.SendSyncEventCount) ∧
      mapLookup q.MonitorInfo "outFlowBytes" = some (float64 pm.OutFlowBytes) ∧
      mapLookup q.MonitorInfo "inFlowBytes" = some (float64 pm.InFlowBytes) ∧
      mapLookup q.MonitorInfo "sendQueueCount" = some (float64 pm.SendQueueCount) ∧
      mapLookup q.MonitorInfo "receiveQueueCount" = some (float64 pm.ReceiveQueueCount) ∧
      mapLookup q.MonitorInfo "allocShmErrorCount" = some (float64 sm.AllocShmErrorCount) ∧
      mapLookup q.MonitorInfo "fallbackWriteCount" = some (float64 sm.FallbackWriteCount) ∧
      mapLookup q.MonitorInfo "fallbackReadCount" = some (float64 sm.FallbackReadCount) ∧
      mapLookup q.MonitorInfo "eventConnErrorCount" = some (float64 sm.EventConnErrorCount) ∧
      mapLookup q.MonitorInfo "queueFullErrorCount" = some (float64 sm.QueueFullErrorCount) ∧
      mapLookup q.MonitorInfo "activeStreamCount" = some (float64 sm.ActiveStreamCount) ∧
      mapLookup q.MonitorInfo "hotRestartSuccessCount" =
        some (float64 sm.HotRestartSuccessCount) ∧
      mapLookup q.MonitorInfo "hotRestartErrorCount" =
        some (float64 sm.HotRestartErrorCount) ∧
      mapLookup q.MonitorInfo "capacityOfShareMemory" =
        some (float64 shm.CapacityOfShareMemoryInBytes) ∧
      mapLookup q.MonitorInfo "allInUsedShareMemory" =
        some (float64 shm.AllInUsedShareMemoryInBytes) := by
  refine ⟨_, reachable_emit p hp pm sm shm session, ?_⟩
  simp [emitted, mapLen, mapLookup, snapshotEntries, snapshotFields, List.lookup]

/-- Witness of C1 at the snapshot of the test, on the freshly built monitor. -/
theorem OnEmitSessionMetrics_MonitorInfo_witness :
    Reachable initialMonitor ∧
    ∃ q, OnEmitSessionMetrics initialMonitor testPerformance testStability testShareMemory
        none = .ok q ∧
      mapLen q.MonitorInfo = 16 ∧
      mapLookup q.MonitorInfo "receiveSyncEventCount" = some ⟨10⟩ ∧
      mapLookup q.MonitorInfo "capacityOfShareMemory" = some ⟨1048576⟩ := by
  refine ⟨reachable_initialMonitor, ?_⟩
  obtain ⟨q, hq, hlen, h1, -, -, -, -, -, -, -, -, -, -, -, -, -, h15, -⟩ :=
    OnEmitSessionMetrics_MonitorInfo initialMonitor testPerformance testStability
      testShareMemory none reachable_initialMonitor
  exact ⟨q, hq, hlen, h1, h15⟩

/-- C2. From every monitor state reachable from `NewPrometheusMonitor`, after
`OnEmitSessionMetrics` each of the sixteen gauge fields holds the gauge declared under
its name, set to the float64 of its own snapshot field, and the `MonitorInfo` entry of
the same field is that same value. -/
theorem OnEmitSessionMetrics_sinks_agree (p : PrometheusMonitor) (pm : PerformanceMetrics)
    (sm : StabilityMetrics) (shm : ShareMemoryMetrics) (session : Option Session)
    (hp : Reachable p) :
    ∃ q, OnEmitSessionMetrics p pm sm shm session = .ok q ∧
      sinksAgree q.receiveSyncEventCount "receive_sync_event_count" q.MonitorInfo
        "receiveSyncEventCount" (float64 pm.ReceiveSyncEventCount) ∧
      sinksAgree q.sendSyncEventCount "send_sync_event_count" q.MonitorInfo
        "sendSyncEventCount" (float64 pm.SendSyncEventCount) ∧
      sinksAgree q.outFlowBytes "out_flow_bytes" q.MonitorInfo
        "outFlowBytes" (float64 pm.OutFlowBytes) ∧
      sinksAgree q.inFlowBytes "in_flow_bytes" q.MonitorInfo
        "inFlowBytes" (float64 pm.InFlowBytes) ∧
      sinksAgree q.sendQueueCount "send_queue_count" q.MonitorInfo
        "sendQueueCount" (float64 pm.SendQueueCount) ∧
      sinksAgree q.receiveQueueCount "receive_queue_count" q.MonitorInfo
        "receiveQueueCount" (float64 pm.ReceiveQueueCount) ∧
      sinksAgree q.allocShmErrorCount "alloc_shm_error_count" q.MonitorInfo
        "allocShmErrorCount" (float64 sm.AllocShmErrorCount) ∧
      sinksAgree q.fallbackWriteCount "fallback_write_count" q.MonitorInfo
        "fallbackWriteCount" (float64 sm.FallbackWriteCount) ∧
      sinksAgree q.fallbackReadCount "fallback_read_count" q.MonitorInfo
        "fallbackReadCount" (float64 sm.FallbackReadCount) ∧
      sinksAgree q.eventConnErrorCount "event_conn_error_count" q.MonitorInfo
        "eventConnErrorCount" (float64 sm.EventConnErrorCount) ∧
      sinksAgree q.queueFullErrorCount "queue_full_error_count" q.MonitorInfo
        "queueFullErrorCount" (float64 sm.QueueFullErrorCount) ∧
      sinksAgree q.activeStreamCount "active_stream_count" q.MonitorInfo
        "activeStreamCount" (float64 sm.ActiveStreamCount) ∧
      sinksAgree q.hotRestartSuccessCount "hot_restart_success_count" q.MonitorInfo
        "hotRestartSuccessCount" (float64 sm.HotRestartSuccessCount) ∧
      sinksAgree q.hotRestartErrorCount "hot_restart_error_count" q.MonitorInfo
        "hotRestartErrorCount" (float64 sm.HotRestartErrorCount) ∧
      sinksAgree q.capacityOfShareMemory "capacity_of_share_memory" q.MonitorInfo
        "capacityOfShareMemory" (float64 shm.CapacityOfShareMemoryInBytes) ∧
      sinksAgree q.allInUsedShareMemory "all_in_used_share_memory" q.MonitorInfo
        "allInUsedShareMemory" (float64 shm.AllInUsedShareMemoryInBytes) := by
  refine ⟨_, reachable_emit p hp pm sm shm session, ?_⟩
  obtain ⟨h1, h2, h3, h4, h5, h6, h7, h8, h9, h10, h11, h12, h13, h14, h15, h16, h⟩ :=
    initialMonitor_eq
  rw [h]
  simp [emitted, withValue, sinksAgree, mapLookup, snapshotEntries, snapshotFields,
    List.lookup]

/-- Witness of C2 at the snapshot of the test, on the freshly built monitor. -/
theorem OnEmitSessionMetrics_sinks_agree_witness :
    Reachable initialMonitor ∧
    ∃ q, OnEmitSessionMetrics initialMonitor testPerformance testStability testShareMemory
        none = .ok q ∧
      sinksAgree q.receiveSyncEventCount "receive_sync_event_count" q.MonitorInfo
        "receiveSyncEventCount" ⟨10⟩ ∧
      sinksAgree q.allInUsedShareMemory "all_in_used_share_memory" q.MonitorInfo
        "allInUsedShareMemory" ⟨524288⟩ := by
  refine ⟨reachable_initialMonitor, ?_⟩
  obtain ⟨q, hq, h1, -, -, -, -, -, -, -, -, -, -, -, -, -, -, h16⟩ :=
    OnEmitSessionMetrics_sinks_agree initialMonitor testPerformance testStability
      testShareMemory none reachable_initialMonitor
  exact ⟨q, hq, h1, h16⟩

/-- C3. Last write wins: from every reachable monitor state, a call with a first
snapshot followed by a call with a second one returns, and leaves the very state (the
sixteen gauges and `MonitorInfo`) that a single call with the second snapshot leaves;
with twice the same snapshot, the state of one call. -/
theorem OnEmitSessionMetrics_last_write_wins (p : PrometheusMonitor)
    (pm1 : PerformanceMetrics) (sm1 : StabilityMetrics) (shm1 : ShareMemoryMetrics)
    (s1 : Option Session) (pm2 : PerformanceMetrics) (sm2 : StabilityMetrics)
    (shm2 : ShareMemoryMetrics) (s2 : Option Session) (hp : Reachable p) :
    ∃ q, OnEmitSessionMetrics p pm2 sm2 shm2 s2 = .ok q ∧
      (OnEmitSessionMetrics p pm1 sm1 shm1 s1 >>= fun p1 =>
        OnEmitSessionMetrics p1 pm2 sm2 shm2 s2) = .ok q ∧
      (OnEmitSessionMetrics p pm2 sm2 shm2 s2 >>= fun p1 =>
        OnEmitSessionMetrics p1 pm2 sm2 shm2 s2) = .ok q := by
  refine ⟨_, reachable_emit p hp pm2 sm2 shm2 s2, ?_, ?_⟩
  · rw [reachable_emit p hp pm1 sm1 shm1 s1, ok_bind]
    exact emit_emitted pm1 sm1 shm1 pm2 sm2 shm2 s2
  · rw [reachable_emit p hp pm2 sm2 shm2 s2, ok_bind]
    exact emit_emitted pm2 sm2 shm2 pm2 sm2 shm2 s2

/-- Witness of C3: the snapshot of the test after an all-zero snapshot, on the freshly
built monitor. -/
theorem OnEmitSessionMetrics_last_write_wins_witness :
    Reachable initialMonitor ∧
    ∃ q, OnEmitSessionMetrics initialMonitor testPerformance testStability testShareMemory
        none = .ok q ∧
      (OnEmitSessionMetrics initialMonitor ⟨0, 0, 0, 0, 0, 0⟩ ⟨0, 0, 0, 0, 0, 0, 0, 0⟩ ⟨0, 0⟩
        none >>= fun p1 =>
        OnEmitSessionMetrics p1 testPerformance testStability testShareMemory none) =
        .ok q := by
  refine ⟨reachable_initialMonitor, ?_⟩
  obtain ⟨q, hq, h12, -⟩ :=
    OnEmitSessionMetrics_last_write_wins initialMonitor ⟨0, 0, 0, 0, 0, 0⟩
      ⟨0, 0, 0, 0, 0, 0, 0, 0⟩ ⟨0, 0⟩ none testPerformance testStability testShareMemory none
      reachable_initialMonitor
  exact ⟨q, hq, h12⟩

/-- C10. For a snapshot whose sixteen counters are at most 2^53, from every reachable
monitor state the call stores under each key a float64 that denotes exactly the integer
of the snapshot field, converting it back with `uint64` returns that integer, and a
second such snapshot that differs in a field never stores the same value for it. -/
theorem OnEmitSessionMetrics_widening_exact (p : PrometheusMonitor)
    (pm : PerformanceMetrics) (sm : StabilityMetrics) (shm : ShareMemoryMetrics)
    (session : Option Session) (hp : Reachable p)
    (hb : ∀ kn ∈ snapshotFields pm sm shm, kn.2 ≤ 2 ^ 53) :
    ∃ q, OnEmitSessionMetrics p pm sm shm session = .ok q ∧
      (∀ kn ∈ snapshotFields pm sm shm, ∃ v, mapLookup q.MonitorInfo kn.1 = some v ∧
        v.val = kn.2 ∧ v.toUint64 = some kn.2) ∧
      (∀ (p2 : PrometheusMonitor) (pm2 : PerformanceMetrics) (sm2 : StabilityMetrics)
        (shm2 : ShareMemoryMetrics) (session2 : Option Session) (q2 : PrometheusMonitor),
        Reachable p2 → (∀ kn ∈ snapshotFields pm2 sm2 shm2, kn.2 ≤ 2 ^ 53) →
        OnEmitSessionMetrics p2 pm2 sm2 shm2 session2 = .ok q2 →
        ∀ x ∈ List.zip (snapshotFields pm sm shm) (snapshotFields pm2 sm2 shm2),
          x.1.2 ≠ x.2.2 →
          mapLookup q.MonitorInfo x.1.1 ≠ mapLookup q2.MonitorInfo x.1.1) := by
  refine ⟨_, reachable_emit p hp pm sm shm session, ?_, ?_⟩
  · intro kn hkn
    refine ⟨float64 kn.2, lookup_snapshotEntries pm sm shm kn hkn, ?_, ?_⟩
    · exact roundToFloat64_of_le kn.2 (hb kn hkn)
    · have hv : (float64 kn.2).val = kn.2 := roundToFloat64_of_le kn.2 (hb kn hkn)
      have hlt : kn.2 < 2 ^ 64 := lt_of_le_of_lt (hb kn hkn) (by norm_num)
      unfold Float64.toUint64
      rw [hv, if_pos hlt]
  · intro p2 pm2 sm2 shm2 session2 q2 hp2 hb2 hq2 x hx hne heq
    rw [reachable_emit p2 hp2 pm2 sm2 shm2 session2] at hq2
    cases hq2
    obtain ⟨h1, h2, hk⟩ := zip_snapshotFields pm sm shm pm2 sm2 shm2 x hx
    have e1 : mapLookup (emitted initialMonitor pm sm shm).MonitorInfo x.1.1 =
        some (float64 x.1.2) := lookup_snapshotEntries pm sm shm x.1 h1
    have e2 : mapLookup (emitted initialMonitor pm2 sm2 shm2).MonitorInfo x.1.1 =
        some (float64 x.2.2) := by
      rw [hk]
      exact lookup_snapshotEntries pm2 sm2 shm2 x.2 h2
    rw [e1, e2] at heq
    have hval : (float64 x.1.2).val = (float64 x.2.2).val := by
      rw [Option.some.inj heq]
    have r1 : (float64 x.1.2).val = x.1.2 := roundToFloat64_of_le _ (hb x.1 h1)
    have r2 : (float64 x.2.2).val = x.2.2 := roundToFloat64_of_le _ (hb2 x.2 h2)
    exact hne (by rw [← r1, ← r2, hval])

theorem testFields_le : ∀ kn ∈ snapshotFields testPerformance testStability testShareMemory,
    kn.2 ≤ 2 ^ 53 := by
  decide

/-- Witness of C10 at the snapshot of the test, on the freshly built monitor. -/
theorem OnEmitSessionMetrics_widening_exact_witness :
    Reachable initialMonitor ∧
    (∀ kn ∈ snapshotFields testPerformance testStability testShareMemory, kn.2 ≤ 2 ^ 53) ∧
    ∃ q, OnEmitSessionMetrics initialMonitor testPerformance testStability testShareMemory
        none = .ok q ∧
      ∀ kn ∈ snapshotFields testPerformance testStability testShareMemory,
        ∃ v, mapLookup q.MonitorInfo kn.1 = some v ∧ v.val = kn.2 ∧
          v.toUint64 = some kn.2 := by
  refine ⟨reachable_initialMonitor, testFields_le, ?_⟩
  obtain ⟨q, hq, h, -⟩ :=
    OnEmitSessionMetrics_widening_exact initialMonitor testPerformance testStability
      testShareMemory none reachable_initialMonitor testFields_le
  exact ⟨q, hq, h⟩

/-! ## Claims about `Flush` -/

theorem keepWritten_all (w : Nat → Bool) (hw : ∀ i, w i = true) :
    ∀ (ls : List String) (i : Nat), keepWritten w i ls = ls := by
  intro ls
  induction ls with
  | nil => intro i; rfl
  | cons l ls ih =>
    intro i
    rw [keepWritten, if_pos (hw i), ih]

theorem keepWritten_none (w : Nat → Bool) (hw : ∀ i, w i = false) :
    ∀ (ls : List String) (i : Nat), keepWritten w i ls = [] := by
  intro ls
  induction ls with
  | nil => intro i; rfl
  | cons l ls ih =>
    intro i
    rw [keepWritten, hw i]
    exact ih (i + 1)

theorem snapshotEntries_wellformed (pm : PerformanceMetrics) (sm : StabilityMetrics)
    (shm : ShareMemoryMetrics) : ∀ kv ∈ snapshotEntries pm sm shm,
    ':' ∉ kv.1.data ∧ roundToFloat64 kv.2.val = kv.2.val ∧
      mapLookup (some (snapshotEntries pm sm shm)) kv.1 = some kv.2 := by
  intro kv h
  unfold snapshotEntries at h
  obtain ⟨kn, hkn, rfl⟩ := List.mem_map.mp h
  refine ⟨?_, roundToFloat64_idem kn.2, lookup_snapshotEntries pm sm shm kn hkn⟩
  simp only [snapshotFields, List.mem_cons, List.mem_singleton, List.not_mem_nil, or_false]
    at hkn
  rcases hkn with rfl | rfl | rfl | rfl | rfl | rfl | rfl | rfl | rfl | rfl | rfl | rfl | rfl |
    rfl | rfl | rfl <;> (dsimp only; decide)

theorem reachable_entries (p : PrometheusMonitor) (hp : Reachable p) :
    ∀ kv ∈ p.MonitorInfo.getD [], ':' ∉ kv.1.data ∧ roundToFloat64 kv.2.val = kv.2.val ∧
      mapLookup p.MonitorInfo kv.1 = some kv.2 := by
  rcases reachable_cases p hp with rfl | ⟨pm, sm, shm, rfl⟩
  · obtain ⟨h1, h2, h3, h4, h5, h6, h7, h8, h9, h10, h11, h12, h13, h14, h15, h16, h⟩ :=
      initialMonitor_eq
    rw [h]
    intro kv hkv
    simp at hkv
  · exact snapshotEntries_wellformed pm sm shm

theorem Flush_created (p : PrometheusMonitor) (env : FlushEnv) (hc : env.createErr = none) :
    Flush p env =
      (p, ⟨none, "MonitorInfo_" ++ env.now.Format ++ ".log", true,
        (env.rangeOrder (p.MonitorInfo.getD [])).map formatEntry,
        keepWritten env.writeOk 0
          ((env.rangeOrder (p.MonitorInfo.getD [])).map formatEntry)⟩) := by
  unfold Flush
  rw [hc]

theorem Flush_failed (p : PrometheusMonitor) (env : FlushEnv) (e : String)
    (hc : env.createErr = some e) :
    Flush p env =
      (p, ⟨some ("failed to create file: " ++ e),
        "MonitorInfo_" ++ env.now.Format ++ ".log", false, [], []⟩) := by
  unfold Flush
  rw [hc]

theorem Flush_name (p : PrometheusMonitor) (env : FlushEnv) :
    (Flush p env).2.name = "MonitorInfo_" ++ env.now.Format ++ ".log" := by
  cases hc : env.createErr with
  | none => rw [Flush_created p env hc]
  | some e => rw [Flush_failed p env e hc]

/-- C4, where the claim fails: the monitor of the test, reachable and with sixteen
entries in `MonitorInfo`, is flushed; the file is created, the first write fails, and
the file holds fifteen lines, not one per entry. -/
theorem Flush_created_file_misses_line :
    Reachable testMonitor ∧ firstWriteFailsEnv.createErr = none ∧
    (Flush testMonitor firstWriteFailsEnv).2.created = true ∧
    mapLen testMonitor.MonitorInfo = 16 ∧
    (Flush testMonitor firstWriteFailsEnv).2.written.length = 15 := by
  rw [Flush_created testMonitor firstWriteFailsEnv rfl]
  exact ⟨reachable_testMonitor, rfl, rfl, rfl, by decide⟩

/-- C4, amended. For every monitor state reachable from `NewPrometheusMonitor` by calls
of `OnEmitSessionMetrics`, a `Flush` whose file creation succeeds and whose writes all
succeed leaves in the file exactly one line per entry of `MonitorInfo`, in the order
`range` visits them: each line is `<key>: <value>\n` for an entry of the map, the
value in fixed-point decimal with six fractional digits, and reading the line back
gives that same entry. -/
theorem Flush_lines_roundtrip (p : PrometheusMonitor) (env : FlushEnv) (hp : Reachable p)
    (hc : env.createErr = none) (hw : ∀ i, env.writeOk i = true)
    (hord : ∀ m, (env.rangeOrder m).Perm m) :
    (Flush p env).2.created = true ∧
    (Flush p env).2.written = (Flush p env).2.lines ∧
    (Flush p env).2.written.length = mapLen p.MonitorInfo ∧
    (Flush p env).2.written.Perm ((p.MonitorInfo.getD []).map formatEntry) ∧
    (∀ line ∈ (Flush p env).2.written, ∃ k v, mapLookup p.MonitorInfo k = some v ∧
      line = k ++ ": " ++ formatF v ++ "\n" ∧ isFixedPoint6 (formatF v) = true ∧
      parseLine line = some (k, v)) := by
  rw [Flush_created p env hc]
  dsimp only
  rw [keepWritten_all env.writeOk hw _ 0]
  refine ⟨rfl, rfl, ?_, ?_, ?_⟩
  · simp only [List.length_map]
    rw [(hord _).length_eq]
    cases p.MonitorInfo <;> rfl
  · exact (hord _).map formatEntry
  · intro line hl
    obtain ⟨kv, hkv, rfl⟩ := List.mem_map.mp hl
    obtain ⟨hk, hv, hlook⟩ := reachable_entries p hp kv ((hord _).mem_iff.mp hkv)
    exact ⟨kv.1, kv.2, hlook, rfl, isFixedPoint6_formatF kv.2,
      parseLine_formatEntry kv.1 kv.2 hk hv⟩

/-- Witness of the amended C4: the monitor of the test, flushed in an environment where
the file is created and every write succeeds. -/
theorem Flush_lines_roundtrip_witness :
    Reachable testMonitor ∧ (healthyEnv (noonAt 0)).createErr = none ∧
    (∀ i, (healthyEnv (noonAt 0)).writeOk i = true) ∧
    (∀ m, ((healthyEnv (noonAt 0)).rangeOrder m).Perm m) ∧
    (Flush testMonitor (healthyEnv (noonAt 0))).2.written.length =
      mapLen testMonitor.MonitorInfo ∧
    (∀ line ∈ (Flush testMonitor (healthyEnv (noonAt 0))).2.written,
      ∃ k v, mapLookup testMonitor.MonitorInfo k = some v ∧
        line = k ++ ": " ++ formatF v ++ "\n" ∧ isFixedPoint6 (formatF v) = true ∧
        parseLine line = some (k, v)) :=
  ⟨reachable_testMonitor, rfl, fun _ => rfl, fun m => List.Perm.refl m,
    (Flush_lines_roundtrip testMonitor (healthyEnv (noonAt 0)) reachable_testMonitor rfl
      (fun _ => rfl) (fun m => List.Perm.refl m)).2.2.1,
    (Flush_lines_roundtrip testMonitor (healthyEnv (noonAt 0)) reachable_testMonitor rfl
      (fun _ => rfl) (fun m => List.Perm.refl m)).2.2.2.2⟩

/-- C5. `Flush` returns an error exactly when the file creation fails and nil when it
succeeds; when the creation fails it writes no line; and in both cases the monitor, and
with it `MonitorInfo` entry for entry, is what it was before the call, so that a later
`OnEmitSessionMetrics` or `Flush` behaves as if the call had not happened. -/
theorem Flush_error_and_state (p : PrometheusMonitor) (env : FlushEnv) :
    ((Flush p env).2.err = none ↔ env.createErr = none) ∧
    (env.createErr ≠ none → (Flush p env).2.lines = [] ∧ (Flush p env).2.written = [] ∧
      (Flush p env).2.created = false) ∧
    (Flush p env).1.MonitorInfo = p.MonitorInfo ∧
    (∀ k, mapLookup (Flush p env).1.MonitorInfo k = mapLookup p.MonitorInfo k) ∧
    mapLen (Flush p env).1.MonitorInfo = mapLen p.MonitorInfo ∧
    (∀ pm sm shm session, OnEmitSessionMetrics (Flush p env).1 pm sm shm session =
      OnEmitSessionMetrics p pm sm shm session) ∧
    (∀ env2, Flush (Flush p env).1 env2 = Flush p env2) := by
  cases hc : env.createErr with
  | none =>
    rw [Flush_created p env hc]
    simp
  | some e =>
    rw [Flush_failed p env e hc]
    simp

/-- The call of `Flush` on the monitor of the test when the file cannot be created. -/
theorem Flush_denied :
    Flush testMonitor deniedEnv =
      (testMonitor,
        ⟨some "failed to create file: open MonitorInfo_20230701120000.log: permission denied",
          "MonitorInfo_20230701120000.log", false, [], []⟩) := by
  rw [Flush_failed testMonitor deniedEnv _ rfl]
  decide

/-- C6, evaluated where the claim fails: the monitor of the test is flushed, the file
is created and every write to it fails; `Flush` passes sixteen lines to `Fprintf`, none
reaches the file, and the error returned is nil. -/
theorem Flush_write_failure_returns_nil :
    diskFullEnv.createErr = none ∧ (∀ i, diskFullEnv.writeOk i = false) ∧
    (Flush testMonitor diskFullEnv).2.created = true ∧
    (Flush testMonitor diskFullEnv).2.lines.length = 16 ∧
    (Flush testMonitor diskFullEnv).2.written = [] ∧
    (Flush testMonitor diskFullEnv).2.err = none := by
  rw [Flush_created testMonitor diskFullEnv rfl]
  refine ⟨rfl, fun _ => rfl, rfl, ?_, ?_, rfl⟩
  · rfl
  · exact keepWritten_none _ (fun _ => rfl) _ 0

/-- C9, where the claim fails: two calls of `Flush` at different instants of the same
second, both creating their file, pass the same name to `os.Create`. -/
theorem Flush_same_second_same_name :
    noonAt 0 ≠ noonAt 500000000 ∧ (noonAt 0).Valid ∧ (noonAt 500000000).Valid ∧
    (Flush testMonitor (healthyEnv (noonAt 0))).2.created = true ∧
    (Flush testMonitor (healthyEnv (noonAt 500000000))).2.created = true ∧
    (Flush testMonitor (healthyEnv (noonAt 0))).2.name = "MonitorInfo_20230701120000.log" ∧
    (Flush testMonitor (healthyEnv (noonAt 500000000))).2.name =
      "MonitorInfo_20230701120000.log" := by
  rw [Flush_created testMonitor (healthyEnv (noonAt 0)) rfl,
    Flush_created testMonitor (healthyEnv (noonAt 500000000)) rfl]
  refine ⟨by decide, ?_, ?_, rfl, rfl, by decide, by decide⟩
  · unfold Time.Valid; decide
  · unfold Time.Valid; decide

/-- C9, amended. The name `Flush` passes to `os.Create` is `MonitorInfo_`, the clock
reading formatted as year, month, day, hour, minute and second, and `.log`; two calls
whose clock readings fall in different calendar seconds pass different names, so the
later one does not create the file of the earlier one. -/
theorem Flush_name_distinct_seconds (p1 p2 : PrometheusMonitor) (env1 env2 : FlushEnv)
    (h1 : env1.now.Valid) (h2 : env2.now.Valid)
    (hne : env1.now.calendarSecond ≠ env2.now.calendarSecond) :
    (Flush p1 env1).2.name = "MonitorInfo_" ++ env1.now.Format ++ ".log" ∧
    (Flush p2 env2).2.name = "MonitorInfo_" ++ env2.now.Format ++ ".log" ∧
    (Flush p1 env1).2.name ≠ (Flush p2 env2).2.name := by
  refine ⟨Flush_name p1 env1, Flush_name p2 env2, ?_⟩
  rw [Flush_name, Flush_name]
  intro h
  exact hne (Format_injective _ _ h1 h2 (flushName_injective _ _ h))

theorem noonAt_valid : (noonAt 0).Valid := by
  unfold Time.Valid; decide

theorem nextSecond_valid : (⟨2023, 7, 1, 12, 0, 1, 0⟩ : Time).Valid := by
  unfold Time.Valid; decide

/-- Witness of the amended C9: two calls one second apart. -/
theorem Flush_name_distinct_seconds_witness :
    (healthyEnv (noonAt 0)).now.Valid ∧ (healthyEnv ⟨2023, 7, 1, 12, 0, 1, 0⟩).now.Valid ∧
    (healthyEnv (noonAt 0)).now.calendarSecond ≠
      (healthyEnv ⟨2023, 7, 1, 12, 0, 1, 0⟩).now.calendarSecond ∧
    (Flush testMonitor (healthyEnv (noonAt 0))).2.name ≠
      (Flush testMonitor (healthyEnv ⟨2023, 7, 1, 12, 0, 1, 0⟩)).2.name :=
  ⟨noonAt_valid, nextSecond_valid, by decide,
    (Flush_name_distinct_seconds testMonitor testMonitor (healthyEnv (noonAt 0))
      (healthyEnv ⟨2023, 7, 1, 12, 0, 1, 0⟩) noonAt_valid nextSecond_valid (by decide)).2.2⟩

/-! ## Claims about `NewPrometheusMonitor` -/

theorem validPattern_ne_empty (rules : MuxRules) (pattern : String)
    (h : validPattern rules pattern = true) : pattern ≠ "" := by
  unfold validPattern at h
  simp only [Bool.and_eq_true, bne_iff_ne, ne_eq] at h
  exact h.1

theorem Handle_ok (mux m : ServeMux) (pattern : String) (h : mux.Handle pattern = .ok m) :
    validPattern mux.rules pattern = true ∧ m.rules = mux.rules ∧
      m.patterns = mux.patterns ++ [pattern] := by
  unfold ServeMux.Handle at h
  split_ifs at h with h0 h1 h2 h3
  cases h
  exact ⟨by simpa using h1, rfl, rfl⟩

theorem Handle_again (mux : ServeMux) (pattern : String)
    (hv : validPattern mux.rules pattern = true) (hm : pattern ∈ mux.patterns) :
    mux.Handle pattern = .error ("http: multiple registrations for " ++ pattern) := by
  unfold ServeMux.Handle
  rw [if_neg (validPattern_ne_empty _ _ hv), hv, if_neg (by simp), if_pos hm]

theorem Handle_fresh (rules : MuxRules) (pattern : String)
    (hv : validPattern rules pattern = true) :
    (Process.fresh rules).DefaultServeMux.Handle pattern = .ok ⟨rules, [pattern]⟩ := by
  unfold ServeMux.Handle Process.fresh
  rw [if_neg (validPattern_ne_empty _ _ hv)]
  simp [hv]

theorem promauto_NewGauge_dup (d : Registry) (o : GaugeOpts) (h : o ∈ d.collectors) :
    ∃ e, promauto.NewGauge d o = .error e := by
  have hany : (d.collectors.any fun x => decide (x = o)) = true := by
    simpa using h
  unfold promauto.NewGauge
  simp only [Registry.MustRegister, Registry.Register, NewGauge, hany]
  split_ifs
  · exact ⟨_, rfl⟩
  · exact ⟨_, rfl⟩

theorem New_process (proc : Process) (addr path : String) (b : Built)
    (h : NewPrometheusMonitor proc addr path = .ok b) :
    validPattern b.process.DefaultServeMux.rules path = true ∧
    path ∈ b.process.DefaultServeMux.patterns ∧
    (⟨"receive_sync_event_count", "The SyncEvent count that session had received"⟩ :
      GaugeOpts) ∈ b.process.DefaultRegisterer.collectors := by
  unfold NewPrometheusMonitor at h
  simp only [bind_eq_ok, pure, Except.pure] at h
  obtain ⟨mux, hmux, r1, h1, r2, h2, r3, h3, r4, h4, r5, h5, r6, h6, r7, h7, r8, h8, r9, h9,
    r10, h10, r11, h11, r12, h12, r13, h13, r14, h14, r15, h15, r16, h16, reg, -, hb⟩ := h
  cases hb
  obtain ⟨hv, hr, hp⟩ := Handle_ok _ _ _ hmux
  refine ⟨by simpa [hr] using hv, by simp [hp], ?_⟩
  simp [(promauto_NewGauge_ok _ _ _ h1).2, (promauto_NewGauge_ok _ _ _ h2).2,
    (promauto_NewGauge_ok _ _ _ h3).2, (promauto_NewGauge_ok _ _ _ h4).2,
    (promauto_NewGauge_ok _ _ _ h5).2, (promauto_NewGauge_ok _ _ _ h6).2,
    (promauto_NewGauge_ok _ _ _ h7).2, (promauto_NewGauge_ok _ _ _ h8).2,
    (promauto_NewGauge_ok _ _ _ h9).2, (promauto_NewGauge_ok _ _ _ h10).2,
    (promauto_NewGauge_ok _ _ _ h11).2, (promauto_NewGauge_ok _ _ _ h12).2,
    (promauto_NewGauge_ok _ _ _ h13).2, (promauto_NewGauge_ok _ _ _ h14).2,
    (promauto_NewGauge_ok _ _ _ h15).2, (promauto_NewGauge_ok _ _ _ h16).2]

/-- C7, on the code: once a call of `NewPrometheusMonitor` has returned in a process,
every further call in that process panics, whatever its address and path: at
`http.Handle`, with a multiple registration, when the path is the same, and otherwise
at the latest at the first `promauto.NewGauge`, whose name is already registered in
the default registry. -/
theorem NewPrometheusMonitor_second_call_panics (proc : Process) (addr path : String)
    (b : Built) (addr2 path2 : String)
    (h : NewPrometheusMonitor proc addr path = .ok b) :
    (∃ e, NewPrometheusMonitor b.process addr2 path2 = .error e) ∧
    NewPrometheusMonitor b.process addr2 path =
      .error ("http: multiple registrations for " ++ path) := by
  obtain ⟨hv, hpath, hreg⟩ := New_process proc addr path b h
  constructor
  · cases hH : b.process.DefaultServeMux.Handle path2 with
    | error e =>
      refine ⟨e, ?_⟩
      unfold NewPrometheusMonitor
      rw [hH]
      rfl
    | ok mux =>
      obtain ⟨e, he⟩ := promauto_NewGauge_dup _ _ hreg
      refine ⟨e, ?_⟩
      unfold NewPrometheusMonitor
      rw [hH, ok_bind, he]
      rfl
  · unfold NewPrometheusMonitor
    rw [Handle_again _ _ hv hpath]
    rfl

/-- Witness of C7: the two calls of the tests, one after the other in one process. -/
theorem NewPrometheusMonitor_second_call_panics_witness :
    NewPrometheusMonitor (Process.fresh MuxRules.classic) "localhost:9090" "/metrics" =
      .ok testBuilt ∧
    NewPrometheusMonitor testBuilt.process "localhost:9090" "/metrics" =
      .error ("http: multiple registrations for " ++ "/metrics") :=
  ⟨testBuilt_eq,
    (NewPrometheusMonitor_second_call_panics (Process.fresh MuxRules.classic)
      "localhost:9090" "/metrics" testBuilt "localhost:9090" "/metrics" testBuilt_eq).2⟩

set_option maxHeartbeats 1000000 in
theorem New_fresh (rules : MuxRules) (addr path : String)
    (h : validPattern rules path = true) :
    NewPrometheusMonitor (Process.fresh rules) addr path =
      .ok ⟨⟨⟨rules, [path]⟩, testBuilt.process.DefaultRegisterer, [addr]⟩, testBuilt.registry,
        initialMonitor⟩ := by
  have hH := Handle_fresh rules path h
  unfold NewPrometheusMonitor
  rw [hH]
  rfl

theorem New_empty_path (proc : Process) (addr : String) :
    NewPrometheusMonitor proc addr "" = .error "http: invalid pattern" := by
  unfold NewPrometheusMonitor ServeMux.Handle
  rw [if_pos rfl]
  rfl

theorem New_rejected_path (proc : Process) (addr path : String) (h0 : path ≠ "")
    (h : validPattern proc.DefaultServeMux.rules path = false) :
    NewPrometheusMonitor proc addr path =
      .error ("parsing " ++ path ++ ": " ++
        (proc.DefaultServeMux.rules.parseError path).getD "") := by
  unfold NewPrometheusMonitor ServeMux.Handle
  rw [if_neg h0, h]
  rfl

/-- C8, where the claim fails: in a fresh process the call with the empty path panics
at `http.Handle` and returns no monitor, with the mux of the releases before Go 1.22
and with the mux of any other release. -/
theorem NewPrometheusMonitor_empty_path_panics :
    NewPrometheusMonitor (Process.fresh MuxRules.classic) "localhost:9090" "" =
      .error "http: invalid pattern" ∧
    (∀ rules : MuxRules, NewPrometheusMonitor (Process.fresh rules) "localhost:9090" "" =
      .error "http: invalid pattern") :=
  ⟨New_empty_path _ _, fun _ => New_empty_path _ _⟩

/-- C8, amended. In a process where nothing has been registered, whatever the release
of net/http, for every address and every path that `http.Handle` of that release
accepts as a pattern (it is not empty and the pattern parser accepts it),
`NewPrometheusMonitor` returns: the sixteen names it declares are pairwise distinct,
each gauge field of the monitor is non-nil and its gauge is registered exactly once in
the registry the call created, and `MonitorInfo` is a non-nil map without entries. For
a path the release rejects the call panics at `http.Handle`. -/
theorem NewPrometheusMonitor_fresh (rules : MuxRules) (addr path : String)
    (hpath : validPattern rules path = true) :
    ∃ b, NewPrometheusMonitor (Process.fresh rules) addr path = .ok b ∧
      b.registry.collectors.length = 16 ∧
      (b.registry.collectors.map (fun o => o.Name)).Nodup ∧
      b.monitor.gauges.length = 16 ∧
      (∀ g ∈ b.monitor.gauges, ∃ g0, g = some g0 ∧ b.registry.collectors.count g0.opts = 1) ∧
      b.monitor.MonitorInfo = some [] ∧ mapLen b.monitor.MonitorInfo = 0 ∧
      (∀ addr2 path2, validPattern rules path2 = false →
        ∃ e, NewPrometheusMonitor (Process.fresh rules) addr2 path2 = .error e) := by
  refine ⟨_, New_fresh rules addr path hpath, ?_⟩
  dsimp only
  refine ⟨by decide, by decide, rfl, ?_, by decide, by decide, ?_⟩
  · intro g hg
    simp only [PrometheusMonitor.gauges, List.mem_cons, List.mem_singleton, List.not_mem_nil,
      or_false] at hg
    rcases hg with rfl | rfl | rfl | rfl | rfl | rfl | rfl | rfl | rfl | rfl | rfl | rfl |
      rfl | rfl | rfl | rfl <;> exact ⟨_, rfl, by decide⟩
  · intro addr2 path2 hbad
    by_cases h0 : path2 = ""
    · subst h0
      exact ⟨_, New_empty_path _ _⟩
    · exact ⟨_, New_rejected_path _ _ _ h0 hbad⟩

theorem validPattern_metrics : validPattern MuxRules.classic "/metrics" = true := by
  decide

/-- Witness of the amended C8 at the address and the path of the tests. -/
theorem NewPrometheusMonitor_fresh_witness :
    validPattern MuxRules.classic "/metrics" = true ∧
    ∃ b, NewPrometheusMonitor (Process.fresh MuxRules.classic) "localhost:9090" "/metrics" =
        .ok b ∧
      b.registry.collectors.length = 16 ∧
      (b.registry.collectors.map (fun o => o.Name)).Nodup ∧
      b.monitor.MonitorInfo = some [] := by
  refine ⟨validPattern_metrics, ?_⟩
  obtain ⟨b, hb, h1, h2, -, -, h5, -⟩ :=
    NewPrometheusMonitor_fresh MuxRules.classic "localhost:9090" "/metrics"
      validPattern_metrics
  exact ⟨b, hb, h1, h2, h5⟩

end Shmipc
